import Mathlib

/-!
Verification of the kismet-webui configuration codec (`config_manager.py`)
against its natural-language specification.

The Python code is shallowly embedded: strings are Lean `String`s processed
at the `List Char` level with hand-rolled analogues of the Python string
operations used by the source (`strip`, `split`, `lower`, substring tests,
quote stripping); Python dictionaries holding heterogeneous values are
association lists over a two-constructor value type (`PVal`), matching the
fact that the code stores both strings and booleans in source dictionaries;
fallible code paths (a `try`/`except` that returns `None`, or an uncaught
exception) are `Option`/`Except` values.  Arithmetic on coordinates uses `ℚ`
in place of Python floats (only exact constants and fallbacks are asserted).
-/

/-! ## Python-style character and string primitives -/

/-- Characters stripped by Python's default `str.strip()`. -/
def isPySpace (c : Char) : Bool :=
  c = ' ' || c = '\t' || c = '\n' || c = '\r' || c = '\x0b' || c = '\x0c'

/-- `str.strip()` on a character list: drop Python whitespace at both ends. -/
def pyStripL (l : List Char) : List Char :=
  ((l.dropWhile isPySpace).reverse.dropWhile isPySpace).reverse

/-- `str.strip()` on a string. -/
def pyStrip (s : String) : String := String.mk (pyStripL s.data)

/-- `str.strip(c)` for a single character argument: drop every leading and
trailing occurrence of `c`. -/
def stripCharL (c : Char) (l : List Char) : List Char :=
  ((l.dropWhile (· = c)).reverse.dropWhile (· = c)).reverse

/-- `s.split(c, 1)` when `c` occurs in `s`: the part before the first
occurrence and the part after it; `none` when `c` does not occur
(mirroring the Python idiom `if c in s: a, b = s.split(c, 1)`). -/
def splitFirstL (c : Char) : List Char → Option (List Char × List Char)
  | [] => none
  | x :: xs =>
    if x = c then some ([], xs)
    else (splitFirstL c xs).map (fun p => (x :: p.1, p.2))

/-- `str.split(c)`: split on every occurrence of `c`, keeping empty pieces
 (`"".split(c) = [""]`). -/
def splitAllL (c : Char) : List Char → List (List Char)
  | [] => [[]]
  | x :: xs =>
    let r := splitAllL c xs
    if x = c then [] :: r
    else
      match r with
      | [] => [[x]]
      | h :: t => (x :: h) :: t

/-- `str.lower()` (ASCII, which is all the source ever feeds it). -/
def lowerStr (s : String) : String := String.mk (s.data.map Char.toLower)

/-- `a.startswith(b)`. -/
def pyStartsWith (s pre : String) : Bool := pre.data.isPrefixOf s.data

/-- Helper for substring containment on character lists. -/
def containsSubAux (nd : List Char) : List Char → Bool
  | [] => nd.isEmpty
  | c :: rest => nd.isPrefixOf (c :: rest) || containsSubAux nd rest

/-- Python's `b in a` substring test. -/
def containsSub (nd hay : String) : Bool := containsSubAux nd.data hay.data

/-- `sep.join(parts)`. -/
def joinStr (sep : String) : List String → String
  | [] => ""
  | [x] => x
  | x :: y :: xs => x ++ sep ++ joinStr sep (y :: xs)

/-- Python `int(s)` on a stripped string: optional sign followed by at least
one decimal digit (`none` models a raised `ValueError`). -/
def pyInt (s : String) : Option Int :=
  let l := pyStripL s.data
  let (sign, digits) : Int × List Char :=
    match l with
    | '-' :: rest => (-1, rest)
    | '+' :: rest => (1, rest)
    | _ => (1, l)
  if digits = [] || ¬ digits.all Char.isDigit then none
  else some (sign * (digits.foldl (fun acc c => acc * 10 + (c.toNat - '0'.toNat)) 0 : Nat))

/-! ## Python values and dictionaries

The source dictionaries mix strings and booleans (bare source-line flags are
stored as Python `True`), so dictionary values are modelled by `PVal`. -/

/-- A Python value as stored in the source/option dictionaries. -/
inductive PVal where
  | s (v : String)
  | b (v : Bool)
deriving DecidableEq

/-- Python truthiness for the values that occur (`''` and `False` are falsy). -/
def pvTruthy : PVal → Bool
  | .s v => v ≠ ""
  | .b v => v

/-- Python `str()` of a value, as used by f-string interpolation. -/
def pvStr : PVal → String
  | .s v => v
  | .b true => "True"
  | .b false => "False"

/-- Python `==` between the values that occur (cross-type compares unequal). -/
def pvEq : PVal → PVal → Bool
  | .s a, .s b => a = b
  | .b a, .b b => a = b
  | _, _ => false

/-- Python `!=`. -/
def pvNe (a b : PVal) : Bool := ¬ pvEq a b

/-- `v.startswith(p)` on a dictionary value: raises (`none`) on a boolean. -/
def pvStartsWithQ : PVal → String → Option Bool
  | .s v, p => some (pyStartsWith v p)
  | .b _, _ => none

/-- `v.lower()` on a dictionary value: raises (`none`) on a boolean. -/
def pvLowerQ : PVal → Option String
  | .s v => some (lowerStr v)
  | .b _ => none

/-- An insertion-ordered Python dictionary with string keys. -/
abbrev Dict := List (String × PVal)

/-- `d[k] = v`: replace in place if the key exists, else append. -/
def dictSet (d : Dict) (k : String) (v : PVal) : Dict :=
  match d with
  | [] => [(k, v)]
  | (k', v') :: rest => if k' = k then (k, v) :: rest else (k', v') :: dictSet rest k v

/-- `d.get(k)` (`none` models Python `None`). -/
def pyGet (d : Dict) (k : String) : Option PVal :=
  (d.find? (fun kv => kv.1 = k)).map (·.2)

/-! ## Source-directive parsing (`_parse_source_line`) -/

/-- The per-chunk step of the inner `parse_opts` helper: strip the chunk,
skip it when empty, and store either `key=value` (value stripped of
whitespace, then `"` quotes, then `'` quotes) or a bare flag as `True`. -/
def optStep (opts : Dict) (chunk : List Char) : Dict :=
  let c := pyStripL chunk
  if c = [] then opts
  else
    match splitFirstL '=' c with
    | some kv =>
      dictSet opts (String.mk (pyStripL kv.1))
        (.s (String.mk (stripCharL '\'' (stripCharL '"' (pyStripL kv.2)))))
    | none => dictSet opts (String.mk c) (.b true)

/-- The inner `parse_opts` helper: split the option tail on commas and fold
the chunks into a dictionary. -/
def parseOpts (t : List Char) : Dict :=
  (splitAllL ',' t).foldl optStep []

/-- Pre-processing of `_parse_source_line`: strip the line, reject an empty
line, drop an optional `source=` text, split on the first colon into a
device text and an option tail, and parse the tail. -/
def lineParts (sourceLine : String) : Option (String × Dict) :=
  let line0 := pyStripL sourceLine.data
  if line0 = [] then none
  else
    let line1 := if "source=".data.isPrefixOf line0 then line0.drop 7 else line0
    let pt : List Char × List Char :=
      match splitFirstL ':' line1 with
      | some p => p
      | none => (line1, [])
    let opts := if pt.2 ≠ [] then parseOpts pt.2 else []
    some (String.mk pt.1, opts)

/-- `opts.get('type', '').lower()` — raises (`none`) when the `type` option
was a bare flag (a Python boolean). -/
def typeLowerOf (opts : Dict) : Option String :=
  pvLowerQ ((pyGet opts "type").getD (.s ""))

/-- `opts.get(k, default)` routed through the inner `parse_bool` helper. -/
def parseBoolOpt (opts : Dict) (k : String) (dflt : Bool) : Bool :=
  match (pyGet opts k).getD (.b dflt) with
  | .s v => ["1", "true", "yes", "on"].contains (lowerStr v)
  | .b x => x

/-- The Bluetooth branch of `_parse_source_line`. -/
def btSrc (pfx : String) (opts : Dict) : Dict :=
  let pl := lowerStr pfx
  let name := (pyGet opts "name").getD (.s pfx)
  let chain : Option PVal :=
    [pyGet opts "device", pyGet opts "interface", pyGet opts "if", pyGet opts "dev"].foldl
      (fun acc o =>
        match acc with
        | some v => some v
        | none => match o with
                  | some v => if pvTruthy v then some v else none
                  | none => none)
      none
  let iface : PVal :=
    match chain with
    | some v => v
    | none => if pyStartsWith pl "hci" then .s pfx else .s ""
  [("type", .s "bluetooth"), ("name", name), ("interface", iface)]

/-- The SDR (`rtl433`) branch of `_parse_source_line`. -/
def rtlSrc (pfx : String) (opts : Dict) : Dict :=
  let name := (pyGet opts "name").getD (.s pfx)
  let dev : PVal :=
    match pyGet opts "device" with
    | some v => if pvTruthy v then v else .s pfx
    | none => .s pfx
  let freq := (pyGet opts "channel").getD ((pyGet opts "frequency").getD (.s ""))
  [("type", .s "rtl433"), ("name", name), ("device", dev), ("frequency", freq)]
    ++ (match pyGet opts "gain" with
        | some v => [("gain", v)]
        | none => [])
    ++ (match pyGet opts "ppm_error" with
        | some v => [("ppm_error", v)]
        | none => [])

/-- The WiFi branch of `_parse_source_line`; `none` models the raised
`AttributeError` when the `channels` option is a bare flag. -/
def wifiSrc (pfx : String) (opts : Dict) : Option Dict :=
  let name := (pyGet opts "name").getD (.s pfx)
  let channel := (pyGet opts "channel").getD (.s "")
  match (pyGet opts "channels").getD (.s "") with
  | .b _ => none
  | .s chRaw =>
    let channels := String.mk (stripCharL '\'' (stripCharL '"' chRaw.data))
    some [("type", .s "wifi"), ("name", name), ("interface", .s pfx),
          ("channel", channel), ("channels", .s channels),
          ("channel_hop", .b (parseBoolOpt opts "channel_hop" true)),
          ("channel_hop_rate",
            (pyGet opts "channel_hop_rate").getD
              ((pyGet opts "channel_hoprate").getD (.s "5/sec"))),
          ("ht_channels", .b (parseBoolOpt opts "ht_channels" true)),
          ("vht_channels", .b (parseBoolOpt opts "vht_channels" true)),
          ("band24ghz", .b (parseBoolOpt opts "band24ghz" true)),
          ("band5ghz", .b (parseBoolOpt opts "band5ghz" true)),
          ("band6ghz", .b (parseBoolOpt opts "band6ghz" false))]

/-- Source-type inference and field extraction of `_parse_source_line`
after pre-processing.  The Python `or`-chains short-circuit, so the fallible
`opts.get('type','').lower()` test is only consulted when the cheap text
tests fail, exactly as in the source. -/
def parseCore (pfx : String) (opts : Dict) : Option Dict :=
  let pl := lowerStr pfx
  let isBt : Option Bool :=
    if pyStartsWith pl "hci" || containsSub "bluetooth" pl then some true
    else (typeLowerOf opts).map (· = "bluetooth")
  match isBt with
  | none => none
  | some true => some (btSrc pfx opts)
  | some false =>
    let isRtl : Option Bool :=
      if pyStartsWith pl "rtl433" || containsSub "rtl433" pl then some true
      else (typeLowerOf opts).map (· = "rtl433")
    match isRtl with
    | none => none
    | some true => some (rtlSrc pfx opts)
    | some false => wifiSrc pfx opts

/-- `_parse_source_line`: `none` is Python `None` (empty line, or any
exception caught by the surrounding `try`). -/
def parseSourceLine (s : String) : Option Dict :=
  (lineParts s).bind fun pc => parseCore pc.1 pc.2

/-! ## Source-directive generation (`_generate_source_line`) -/

/-- `_generate_source_line`: `none` is Python `None` (falsy identifying
field, or the exception raised by `iface.startswith` on a boolean). -/
def generateSourceLine (source : Dict) : Option String :=
  let sourceType := (pyGet source "type").getD (.s "wifi")
  let interface :=
    if pvEq sourceType (.s "rtl433") then (pyGet source "device").getD (.s "")
    else (pyGet source "interface").getD (.s "")
  let name := (pyGet source "name").getD interface
  if ¬ pvTruthy interface then none
  else if pvEq sourceType (.s "rtl433") then
    let params : List String :=
      ["type=rtl433"]
        ++ (match pyGet source "frequency" with
            | some v => if pvTruthy v then ["channel=" ++ pvStr v] else []
            | none => [])
        ++ (if pvTruthy name && pvNe name interface then ["name=" ++ pvStr name] else [])
        ++ (match pyGet source "gain" with
            | some v => if pvTruthy v then ["gain=" ++ pvStr v] else []
            | none => [])
        ++ (match pyGet source "ppm_error" with
            | some v => if pvTruthy v then ["ppm_error=" ++ pvStr v] else []
            | none => [])
    some (pvStr interface ++ ":" ++ joinStr "," params)
  else if pvEq sourceType (.s "bluetooth") then
    let iface := (pyGet source "interface").getD interface
    match pvStartsWithQ iface "hci" with
    | none => none
    | some st =>
      if pvTruthy iface && st then
        some (joinStr ":"
          ([pvStr iface] ++ (if pvNe name iface then ["name=" ++ pvStr name] else [])))
      else
        let options : List String :=
          (if pvTruthy iface then ["device=" ++ pvStr iface] else [])
            ++ (if pvNe name (.s "bluetooth") then ["name=" ++ pvStr name] else [])
        some (joinStr ":"
          (["bluetooth"] ++ (if options ≠ [] then [joinStr "," options] else [])))
  else
    let hop := pvTruthy ((pyGet source "channel_hop").getD (.b true))
    let channel := (pyGet source "channel").getD (.s "")
    let channels := (pyGet source "channels").getD (.s "")
    let options : List String :=
      (if pvNe name interface then ["name=" ++ pvStr name] else [])
        ++ (if ¬ hop then ["channel_hop=false"]
            else
              let hopRate := (pyGet source "channel_hop_rate").getD (.s "5/sec")
              if pvTruthy hopRate && pvNe hopRate (.s "5/sec") then
                ["channel_hoprate=" ++ pvStr hopRate]
              else [])
        ++ (if pvTruthy channel then
              ["channel=" ++ pvStr channel] ++ (if hop then ["channel_hop=false"] else [])
            else [])
        ++ (if pvTruthy channels then ["channels=\"" ++ pvStr channels ++ "\""] else [])
        ++ (if pvTruthy ((pyGet source "band24ghz").getD (.b true)) then ["band24ghz=true"] else [])
        ++ (if pvTruthy ((pyGet source "band5ghz").getD (.b true)) then ["band5ghz=true"] else [])
        ++ (if pvTruthy ((pyGet source "band6ghz").getD (.b false)) then ["band6ghz=true"] else [])
        ++ (if ¬ pvTruthy ((pyGet source "ht_channels").getD (.b true)) then ["ht_channels=false"] else [])
        ++ (if ¬ pvTruthy ((pyGet source "vht_channels").getD (.b true)) then ["vht_channels=false"] else [])
    if options ≠ [] then some (pvStr interface ++ ":" ++ joinStr "," options)
    else some (pvStr interface)

/-! ## Structured source specifications (the spec's `SourceSpec` data model)

These are the typed variants of spec section 3; `toDict` renders them as the
dictionaries the Python code passes around (in the exact key order the parser
produces), so "semantically equal on all structured fields" is dictionary
equality. -/

/-- A WiFi source specification. -/
structure WiFiSpec where
  interface : String
  name : String
  channel : String
  channels : String
  channel_hop : Bool
  channel_hop_rate : String
  ht_channels : Bool
  vht_channels : Bool
  band24ghz : Bool
  band5ghz : Bool
  band6ghz : Bool
deriving DecidableEq

/-- A Bluetooth source specification. -/
structure BTSpec where
  interface : String
  name : String
deriving DecidableEq

/-- An SDR (rtl433) source specification; empty `gain`/`ppm_error` mean the
option is absent. -/
structure SDRSpec where
  device : String
  name : String
  frequency : String
  gain : String
  ppm_error : String
deriving DecidableEq

/-- The spec's tagged `SourceSpec` variant. -/
inductive SourceSpec where
  | wifi (w : WiFiSpec)
  | bt (b : BTSpec)
  | sdr (r : SDRSpec)
deriving DecidableEq

/-- Dictionary rendering of a WiFi spec, in the parser's key order. -/
def WiFiSpec.toDict (w : WiFiSpec) : Dict :=
  [("type", .s "wifi"), ("name", .s w.name), ("interface", .s w.interface),
   ("channel", .s w.channel), ("channels", .s w.channels),
   ("channel_hop", .b w.channel_hop), ("channel_hop_rate", .s w.channel_hop_rate),
   ("ht_channels", .b w.ht_channels), ("vht_channels", .b w.vht_channels),
   ("band24ghz", .b w.band24ghz), ("band5ghz", .b w.band5ghz),
   ("band6ghz", .b w.band6ghz)]

/-- Dictionary rendering of a Bluetooth spec. -/
def BTSpec.toDict (b : BTSpec) : Dict :=
  [("type", .s "bluetooth"), ("name", .s b.name), ("interface", .s b.interface)]

/-- Dictionary rendering of an SDR spec. -/
def SDRSpec.toDict (r : SDRSpec) : Dict :=
  [("type", .s "rtl433"), ("name", .s r.name), ("device", .s r.device),
   ("frequency", .s r.frequency)]
    ++ (if r.gain = "" then [] else [("gain", .s r.gain)])
    ++ (if r.ppm_error = "" then [] else [("ppm_error", .s r.ppm_error)])

/-- Dictionary rendering of a `SourceSpec`. -/
def SourceSpec.toDict : SourceSpec → Dict
  | .wifi w => w.toDict
  | .bt b => b.toDict
  | .sdr r => r.toDict

/-- A string that survives the option grammar unchanged: free of commas,
quotes and whitespace (such characters are delimiters or get stripped). -/
def CleanVal (v : String) : Prop :=
  ∀ c ∈ v.data, c ≠ ',' ∧ c ≠ '"' ∧ c ≠ '\'' ∧ isPySpace c = false

instance : DecidablePred CleanVal := fun v =>
  inferInstanceAs (Decidable (∀ c ∈ v.data, _))

/-- A string usable as the text before the first colon: clean and also free
of `:` and `=`. -/
def CleanId (v : String) : Prop := CleanVal v ∧ ':' ∉ v.data ∧ '=' ∉ v.data

instance : DecidablePred CleanId := fun v =>
  inferInstanceAs (Decidable (CleanVal v ∧ _ ∧ _))

/-- Validity of a WiFi spec for the (amended) round-trip property: delimiter
and whitespace free fields, an identifying field that does not collide with
the Bluetooth/SDR naming conventions, both legacy bands enabled, no fixed
channel while hopping, and a hop rate the generator can represent. -/
def WiFiSpec.Valid (w : WiFiSpec) : Prop :=
  CleanId w.interface ∧ w.interface ≠ "" ∧
  pyStartsWith (lowerStr w.interface) "hci" = false ∧
  containsSub "bluetooth" (lowerStr w.interface) = false ∧
  containsSub "rtl433" (lowerStr w.interface) = false ∧
  CleanVal w.name ∧ CleanVal w.channel ∧ CleanVal w.channels ∧
  CleanVal w.channel_hop_rate ∧
  (w.channel = "" ∨ w.channel_hop = false) ∧
  (w.channel_hop_rate = "5/sec" ∨ (w.channel_hop = true ∧ w.channel_hop_rate ≠ "")) ∧
  w.band24ghz = true ∧ w.band5ghz = true

/-- Validity of a Bluetooth spec for the round-trip property. -/
def BTSpec.Valid (b : BTSpec) : Prop :=
  CleanId b.interface ∧ b.interface ≠ "" ∧ CleanVal b.name

/-- Validity of an SDR spec for the round-trip property. -/
def SDRSpec.Valid (r : SDRSpec) : Prop :=
  CleanId r.device ∧ r.device ≠ "" ∧
  pyStartsWith (lowerStr r.device) "hci" = false ∧
  containsSub "bluetooth" (lowerStr r.device) = false ∧
  CleanVal r.name ∧ r.name ≠ "" ∧
  CleanVal r.frequency ∧ CleanVal r.gain ∧ CleanVal r.ppm_error

/-- Validity of a `SourceSpec`. -/
def SourceSpec.Valid : SourceSpec → Prop
  | .wifi w => w.Valid
  | .bt b => b.Valid
  | .sdr r => r.Valid

/-! ## Grid-coordinate conversion (`_mgrs_to_latlon`)

The class defines `_mgrs_to_latlon` twice; in Python the later definition
wins, so the effective implementation is the simplified one with the
`(40.7128, -74.0060)` fallback.  Latitudes/longitudes are modelled in `ℚ`. -/

/-- The fixed fallback coordinate returned on any conversion failure. -/
def fallbackCoord : ℚ × ℚ := (407128 / 10000, -740060 / 10000)

/-- `mgrs_coord.replace(' ', '').upper()`. -/
def mgrsNormalize (s : String) : List Char :=
  (s.data.filter (· ≠ ' ')).map Char.toUpper

/-- The fixed latitude-band letter table (`X` repeated, as in the source). -/
def zoneLetters : List Char := "CDEFGHJKLMNPQRSTUVWXX".data

/-- Numeric value of a digit string (`int` over validated digit characters). -/
def digitsToNat (l : List Char) : ℕ :=
  l.foldl (fun acc c => acc * 10 + (c.toNat - '0'.toNat)) 0

/-- The body of the simplified `_mgrs_to_latlon` inside its `try`; `none`
models any raised `ValueError`. -/
def mgrsCore (m : List Char) : Option (ℚ × ℚ) :=
  if m.length < 5 then none
  else
    let zoneDigits := m.takeWhile Char.isDigit
    let rest := m.dropWhile Char.isDigit
    if zoneDigits = [] then none
    else
      let zoneNum := digitsToNat zoneDigits
      if zoneNum < 1 ∨ zoneNum > 60 then none
      else
        match rest with
        | [] => none
        | zoneLetter :: rest1 =>
          if rest1.length < 2 then none
          else
            let coords := rest1.drop 2
            if coords.length % 2 ≠ 0 then none
            else
              let precision := coords.length / 2
              let easting := coords.take precision
              let northing := coords.drop precision
              let centralMeridian : ℚ := ((zoneNum : ℚ) - 1) * 6 - 180 + 3
              let latBandIdx : ℕ :=
                match zoneLetters.indexOf? zoneLetter with
                | some i => i
                | none => 10
              let baseLat : ℚ := -80 + (latBandIdx : ℚ) * 8
              match (if easting = [] then some 0 else
                      (pyInt (String.mk easting)).map
                        (fun n => ((n : ℚ) / (10 ^ easting.length : ℕ)) * 6 - 3)),
                    (if northing = [] then some 0 else
                      (pyInt (String.mk northing)).map
                        (fun n => ((n : ℚ) / (10 ^ northing.length : ℕ)) * 8)) with
              | some lonOffset, some latOffset =>
                let lon := centralMeridian + lonOffset
                let lat := baseLat + latOffset
                some (max (-90) (min 90 lat), max (-180) (min 180 lon))
              | _, _ => none

/-- `_mgrs_to_latlon` (the effective, later definition): total, with the
documented fallback on any structural failure. -/
def mgrsToLatLon (s : String) : ℚ × ℚ :=
  (mgrsCore (mgrsNormalize s)).getD fallbackCoord

/-! ## Whole-file parsing (`_parse_config_file`)

`_parse_config_file` has no `try`, so `int(...)` failures propagate to the
caller; the parse is therefore `Except`-valued.  The `logging_config`
`log_prefix` key is held in the `log_dir` field (the Lean name avoids a
keyword-like suffix); all string keys keep their source spelling. -/

/-- The parsed `gps_config` sub-dictionary, with its parse-time defaults. -/
structure ParsedGps where
  enabled : Bool
  type : String
  host : String
  port : Int
  remote_host : String
  remote_port : Int
  lat : String
  lon : String
  alt : String
deriving DecidableEq

/-- The parsed `logging_config` sub-dictionary (`log_dir` models the
`log_prefix` key). -/
structure ParsedLogging where
  log_types : List String
  log_dir : String
  log_title : String
  pcapng_log_max_mb : Int
  pcapng_log_duplicate_packets : Bool
  pcapng_log_data_packets : Bool
deriving DecidableEq

/-- The dictionary `_parse_config_file` builds. -/
structure ParsedConfig where
  data_sources : List Dict
  gps_config : ParsedGps
  logging_config : ParsedLogging
  wardrive_mode : Bool
deriving DecidableEq

/-- The defaults `_parse_config_file` starts from. -/
def defaultParsedConfig : ParsedConfig :=
  { data_sources := []
    gps_config :=
      { enabled := false, type := "disabled", host := "localhost", port := 2947
        remote_host := "0.0.0.0", remote_port := 4545, lat := "", lon := "", alt := "" }
    logging_config :=
      { log_types := ["kismet", "pcapng"], log_dir := "/home/user/kismet"
        log_title := "Kismet_Survey", pcapng_log_max_mb := 0
        pcapng_log_duplicate_packets := true, pcapng_log_data_packets := true }
    wardrive_mode := false }

/-- One `gpsd:` parameter (`host=`/`port=`); `int(port)` can raise. -/
def gpsdParamApply (c : ParsedConfig) (param : List Char) : Except Unit ParsedConfig :=
  if "host=".data.isPrefixOf param then
    .ok { c with gps_config := { c.gps_config with host := String.mk (param.drop 5) } }
  else if "port=".data.isPrefixOf param then
    match pyInt (String.mk (param.drop 5)) with
    | some n => .ok { c with gps_config := { c.gps_config with port := n } }
    | none => .error ()
  else .ok c

/-- One `virtual:` parameter (`lat=`/`lon=`/`alt=`). -/
def virtualParamApply (c : ParsedConfig) (param : List Char) : ParsedConfig :=
  if "lat=".data.isPrefixOf param then
    { c with gps_config := { c.gps_config with lat := String.mk (param.drop 4) } }
  else if "lon=".data.isPrefixOf param then
    { c with gps_config := { c.gps_config with lon := String.mk (param.drop 4) } }
  else if "alt=".data.isPrefixOf param then
    { c with gps_config := { c.gps_config with alt := String.mk (param.drop 4) } }
  else c

/-- Processing of one (already split) configuration line, in source order:
the wardrive-marker check runs before the comment filter; `int(...)` can
raise (`Except.error`); unknown keys are ignored. -/
def parseConfigLine (cfg : ParsedConfig) (raw : String) : Except Unit ParsedConfig :=
  let line := pyStripL raw.data
  if "# WARDRIVE_MODE=".data.isPrefixOf line then
    match splitFirstL '=' line with
    | some kv => .ok { cfg with wardrive_mode := String.mk (pyStripL kv.2) = "True" }
    | none => .error ()
  else if line = [] || "#".data.isPrefixOf line then .ok cfg
  else
    match splitFirstL '=' line with
    | none => .ok cfg
    | some kv =>
      let key := String.mk (pyStripL kv.1)
      let value := String.mk (pyStripL kv.2)
      if key = "source" then
        match parseSourceLine value with
        | some src => .ok { cfg with data_sources := cfg.data_sources ++ [src] }
        | none => .ok cfg
      else if key = "gps" then
        let cfg1 := { cfg with gps_config := { cfg.gps_config with enabled := true } }
        if pyStartsWith value "gpsd:" then
          (splitAllL ',' (value.data.drop 5)).foldlM gpsdParamApply
            { cfg1 with gps_config := { cfg1.gps_config with type := "gpsd" } }
        else if pyStartsWith value "virtual:" then
          .ok ((splitAllL ',' (value.data.drop 8)).foldl virtualParamApply
            { cfg1 with gps_config := { cfg1.gps_config with type := "virtual" } })
        else .ok cfg1
      else if key = "log_types" then
        .ok { cfg with logging_config :=
          { cfg.logging_config with log_types := (splitAllL ',' value.data).map String.mk } }
      else if key = "log_prefix" then
        .ok { cfg with logging_config := { cfg.logging_config with log_dir := value } }
      else if key = "log_title" then
        .ok { cfg with logging_config := { cfg.logging_config with log_title := value } }
      else if key = "pcapng_log_max_mb" then
        match pyInt value with
        | some n => .ok { cfg with logging_config := { cfg.logging_config with pcapng_log_max_mb := n } }
        | none => .error ()
      else if key = "pcapng_log_duplicate_packets" then
        .ok { cfg with logging_config :=
          { cfg.logging_config with pcapng_log_duplicate_packets := lowerStr value = "true" } }
      else if key = "pcapng_log_data_packets" then
        .ok { cfg with logging_config :=
          { cfg.logging_config with pcapng_log_data_packets := lowerStr value = "true" } }
      else if key = "dot11_ap_only_survey" ∧ lowerStr value = "true" then
        .ok { cfg with wardrive_mode := true }
      else if key = "load_alert" ∧ containsSub "WARDRIVING:" value then
        .ok { cfg with wardrive_mode := true }
      else .ok cfg

/-- `_parse_config_file`: split on newlines and process every line. -/
def parseConfigFile (content : String) : Except Unit ParsedConfig :=
  (splitAllL '\n' content.data).foldlM
    (fun c l => parseConfigLine c (String.mk l)) defaultParsedConfig

/-- Whether a stripped line is the explicit survey/wardrive marker. -/
def isMarkerLine (raw : String) : Bool :=
  "# WARDRIVE_MODE=".data.isPrefixOf (pyStripL raw.data)

/-- Whether a line is one of the two legacy survey-mode signals that
`_parse_config_file` turns into `wardrive_mode = True`: a
`dot11_ap_only_survey` key with value `true` (case-insensitive), or a
`load_alert` key whose value mentions the survey keyword. -/
def isLegacySurveyLine (raw : String) : Bool :=
  let line := pyStripL raw.data
  if "# WARDRIVE_MODE=".data.isPrefixOf line then false
  else if line = [] || "#".data.isPrefixOf line then false
  else
    match splitFirstL '=' line with
    | none => false
    | some kv =>
      let key := String.mk (pyStripL kv.1)
      let value := String.mk (pyStripL kv.2)
      (key = "dot11_ap_only_survey" && lowerStr value = "true")
        || (key = "load_alert" && containsSub "WARDRIVING:" value)

/-! ## Whole-file generation (`_generate_config_content`)

The save-side document is the web-layer dictionary; here it is a structure
with each key the source reads (the `log_prefix` key again lives in the
`log_dir` field).  `now` abstracts the `os.popen('date')` output; the
`os.makedirs(log_prefix)` side effect has no bearing on the produced text.
Rationals stand in for Python floats, rendered by an uninterpreted
`num/den` form (no claim depends on float formatting). -/

/-- Device-alert sub-dictionary of the save-side document. -/
structure DeviceAlerts where
  device_found_macs : List String
  device_lost_macs : List String
  device_found_timeout : String
  device_lost_timeout : String
deriving DecidableEq

/-- Logging sub-dictionary of the save-side document. -/
structure LoggingData where
  log_types : List String
  log_dir : String
  log_title : String
  pcapng_log_max_mb : Int
  pcapng_log_duplicate_packets : Bool
  pcapng_log_data_packets : Bool
deriving DecidableEq

/-- The save-side document (`config_data`). -/
structure ConfigData where
  wardrive_mode : Bool
  data_sources : List Dict
  gps_type : String
  gps_host : String
  gps_port : String
  coord_format : String
  gps_mgrs : String
  gps_alt_mgrs : String
  gps_lat : String
  gps_lon : String
  gps_alt : String
  gps_remote_host : String
  gps_remote_port : String
  logging_config : LoggingData
  device_alerts : DeviceAlerts
deriving DecidableEq

/-- Uninterpreted decimal stand-in for Python float interpolation. -/
def ratStr (q : ℚ) : String := toString q.num ++ "/" ++ toString q.den

/-- The fixed wardriving directive bundle prepended when the flag is set. -/
def wardriveBundle : List String :=
  ["# WARDRIVING MODE ENABLED",
   "# This configuration is optimized for basic AP collection",
   "load_alert=WARDRIVING:Kismet is in survey/wardriving mode. This turns off tracking non-AP devices and most packet logging.",
   "",
   "# Wardriving optimizations",
   "dot11_ap_only_survey=true",
   "dot11_fingerprint_devices=false",
   "dot11_keep_ietags=false",
   "dot11_keep_eapol=false",
   "kis_log_channel_history=false",
   "kis_log_datasources=false",
   "",
   "# Enable management frame filter for better performance",
   "dot11_datasource_opt=filter_mgmt,true",
   "",
   "# Force disable HT/VHT channels on all sources",
   "dot11_datasource_opt=ht_channels,false",
   "dot11_datasource_opt=vht_channels,false",
   "dot11_datasource_opt=default_ht20,false",
   "dot11_datasource_opt=expand_ht20,false",
   ""]

/-- `_generate_config_content`, returning both the produced lines and the
resulting document state: when wardrive mode is on and `wiglecsv` is absent,
the source appends to the caller's `log_types` list in place, so generation
is state-passing, not pure. -/
def configLines (now : String) (cfg : ConfigData) : List String × ConfigData :=
  let headerLines : List String :=
    ["# Kismet site configuration file",
     "# Generated by Kismet Web UI for kismet_site.conf",
     "# Updated: " ++ pyStrip now,
     "",
     "# Copy this file to /etc/kismet/kismet_site.conf to override default settings",
     ""]
  let markerLines : List String :=
    ["# WARDRIVE_MODE=" ++ (if cfg.wardrive_mode then "True" else "False"), ""]
  let wardriveLines := if cfg.wardrive_mode then wardriveBundle else []
  let sourceLines : List String :=
    if cfg.data_sources ≠ [] then
      ["# Data Sources Configuration"]
        ++ cfg.data_sources.filterMap
            (fun src => (generateSourceLine src).map (fun sl => "source=" ++ sl))
        ++ [""]
    else []
  let gpsLines : List String :=
    ["# GPS Configuration"]
      ++ (if cfg.gps_type = "gpsd" ∨ cfg.gps_type = "remote" then
            ["gps=gpsd:host=" ++ cfg.gps_host ++ ",port=" ++ cfg.gps_port]
          else if cfg.gps_type = "virtual" then
            (if cfg.coord_format = "mgrs" then
               (if cfg.gps_mgrs ≠ "" then
                  -- `_mgrs_to_latlon` is total, so the `except` comment line is unreachable
                  ["gps=virtual:lat=" ++ ratStr (mgrsToLatLon cfg.gps_mgrs).1
                     ++ ",lon=" ++ ratStr (mgrsToLatLon cfg.gps_mgrs).2
                     ++ ",alt=" ++ cfg.gps_alt_mgrs]
                else ["# Virtual GPS enabled but no MGRS coordinate provided"])
             else
               (let alt := if cfg.gps_alt ≠ "" then cfg.gps_alt
                           else if cfg.gps_alt_mgrs ≠ "" then cfg.gps_alt_mgrs else "0"
                if cfg.gps_lat ≠ "" ∧ cfg.gps_lon ≠ "" then
                  ["gps=virtual:lat=" ++ cfg.gps_lat ++ ",lon=" ++ cfg.gps_lon ++ ",alt=" ++ alt]
                else ["# Virtual GPS enabled but coordinates not provided"]))
          else ["# GPS disabled"])
      ++ [""]
  let logTypes :=
    if cfg.wardrive_mode ∧ ¬ cfg.logging_config.log_types.contains "wiglecsv" then
      cfg.logging_config.log_types ++ ["wiglecsv"]
    else cfg.logging_config.log_types
  let cfgOut := { cfg with logging_config := { cfg.logging_config with log_types := logTypes } }
  let loggingLines : List String :=
    ["# Logging Configuration",
     "log_types=" ++ joinStr "," logTypes,
     "log_prefix=" ++ cfg.logging_config.log_dir,
     "log_title=" ++ cfg.logging_config.log_title,
     "logname=kismet",
     "",
     "# PCAP-NG Configuration",
     "pcapng_log_max_mb=" ++ toString cfg.logging_config.pcapng_log_max_mb,
     "pcapng_log_duplicate_packets="
       ++ (if cfg.logging_config.pcapng_log_duplicate_packets then "true" else "false"),
     "pcapng_log_data_packets="
       ++ (if cfg.logging_config.pcapng_log_data_packets then "true" else "false"),
     "channel_hop=true",
     "channel_hop_speed=5/sec",
     "",
     "# Device Detection & Alert Configuration",
     "kis_log_device_filter_default=pass"]
  let al := cfg.device_alerts
  let foundLines : List String :=
    if al.device_found_macs ≠ [] then
      ["# Device Found Alerts"]
        ++ al.device_found_macs.filterMap
            (fun mac => if pyStrip mac ≠ "" then some ("devicefound=" ++ pyStrip mac) else none)
    else []
  let lostLines : List String :=
    if al.device_lost_macs ≠ [] then
      ["# Device Lost Alerts"]
        ++ al.device_lost_macs.filterMap
            (fun mac => if pyStrip mac ≠ "" then some ("devicelost=" ++ pyStrip mac) else none)
    else []
  let foundTimeoutLines : List String :=
    if al.device_found_timeout ≠ "" then
      ["devicefound_timeout=" ++ al.device_found_timeout] else []
  let lostTimeoutLines : List String :=
    if al.device_lost_timeout ≠ "" then
      ["devicelost_timeout=" ++ al.device_lost_timeout] else []
  (headerLines ++ markerLines ++ wardriveLines ++ sourceLines ++ gpsLines ++ loggingLines
     ++ foundLines ++ lostLines ++ foundTimeoutLines ++ lostTimeoutLines
     ++ ["", "# Device Filtering Configuration", ""],
   cfgOut)

/-- `_generate_config_content` joined to text, with the state it leaves. -/
def generateConfigContent (now : String) (cfg : ConfigData) : String × ConfigData :=
  (joinStr "\n" (configLines now cfg).1, (configLines now cfg).2)

/-- `_generate_gpsd_defaults`: a fixed four-line block where only the
`DEVICES=` value varies with the GPS mode. -/
def generateGpsdDefaults (cfg : ConfigData) : String :=
  let devices :=
    if cfg.gps_type = "remote" then
      "udp://" ++ cfg.gps_remote_host ++ ":" ++ cfg.gps_remote_port
    else "/dev/ttyUSB0 /dev/ttyACM0"
  joinStr "\n"
    ["START_DAEMON=\"true\"", "USBAUTO=\"true\"", "GPSD_OPTIONS=\"-n\"",
     "DEVICES=\"" ++ devices ++ "\""] ++ "\n"

/-! ## Saving (`save_config`)

The filesystem is abstracted by an environment of outcome oracles; every
possible `PermissionError`/`Exception` of the source becomes a non-`ok`
outcome, so no write failure can escape as an exception — the function is
total and returns the same result dictionary the source does.  The write
trace (second component) records each path passed to a file-write attempt,
in order, so "later candidates are not attempted" is a statement about the
trace.  The best-effort copy to `/etc/kismet` consults only `copyOk`. -/

/-- Outcome of one `open(path, 'w')`/`write` attempt. -/
inductive WriteRes where
  | ok
  | permDenied
  | ioError
deriving DecidableEq

/-- Abstract filesystem behaviour. -/
structure FSEnv where
  pathExists : String → Bool
  makedirsOk : String → Bool
  writeOk : String → WriteRes
  copyOk : Bool

/-- `os.path.dirname` for the fixed candidate paths used by the source. -/
def dirName (p : String) : String :=
  joinStr "/" (((splitAllL '/' p.data).map String.mk).dropLast)

/-- Result dictionary of `save_config` (`ok path` is
`{'success': True, 'path': path}`, `err` the aggregate failure). -/
inductive SaveRes where
  | ok (path : String)
  | err
deriving DecidableEq

/-- The fixed configuration candidate paths (`self.config_paths`). -/
def configPaths : List String :=
  ["/etc/kismet/kismet_site.conf", "/home/user/.kismet/kismet_site.conf",
   "./kismet_site.conf"]

/-- The fixed gpsd-defaults candidate paths (`self.gpsd_paths`). -/
def gpsdPaths : List String :=
  ["/etc/default/gpsd", "./gpsd"]

/-- The inner gpsd-defaults write loop: best effort, stops at the first
successful write, every failure only continues; returns the write trace. -/
def gpsdWriteTrace (env : FSEnv) : List String → List String
  | [] => []
  | g :: rest =>
    if pyStartsWith g "/etc/" && ¬ env.pathExists (dirName g) then
      gpsdWriteTrace env rest
    else
      match env.writeOk g with
      | .ok => [g]
      | _ => g :: gpsdWriteTrace env rest

/-- The candidate loop of `save_config`: system-area paths are skipped when
the parent directory is missing, other paths require `os.makedirs` to
succeed; any write failure moves on to the next candidate; the first
successful write triggers the gpsd writes and returns success. -/
def savePathsGo (env : FSEnv) : List String → SaveRes × List String
  | [] => (.err, [])
  | p :: rest =>
    let skip :=
      if pyStartsWith p "/etc/" || pyStartsWith p "/usr/" then
        ¬ env.pathExists (dirName p)
      else ¬ env.makedirsOk (dirName p)
    if skip then savePathsGo env rest
    else
      match env.writeOk p with
      | .ok => (.ok p, p :: gpsdWriteTrace env gpsdPaths)
      | _ =>
        let r := savePathsGo env rest
        (r.1, p :: r.2)

/-- `save_config`: the contents are generated up front (total in this
model, so the outer generation `try` cannot fire) and the candidate loop
runs; the write outcomes are abstracted by `env`, so the contents do not
influence control flow. -/
def saveConfig (env : FSEnv) (now : String) (cfg : ConfigData) : SaveRes × List String :=
  let _content := generateConfigContent now cfg
  let _gpsdContent := generateGpsdDefaults _content.2
  savePathsGo env configPaths

/-- Whether `save_config` would succeed in writing candidate path `p`:
its precondition (parent existing / creatable) holds and the write returns
without an exception. -/
def pathOk (env : FSEnv) (p : String) : Bool :=
  (if pyStartsWith p "/etc/" || pyStartsWith p "/usr/" then
     env.pathExists (dirName p)
   else env.makedirsOk (dirName p))
    && decide (env.writeOk p = .ok)

/-! ## Infrastructure for the round-trip proof

`OptAtom` describes one emitted `key=value` option; the generator's output
is a prefix plus comma-joined atom chunks, and the parser's option
dictionary is the left fold of `dictSet` over the atoms. -/

/-- One emitted option: a key, a value, and whether the generator wraps the
value in double quotes (only the `channels` option is quoted). -/
structure OptAtom where
  key : String
  val : String
  quoted : Bool

/-- The emitted text of one option. -/
def OptAtom.chunk (a : OptAtom) : List Char :=
  a.key.data ++ '=' :: (if a.quoted then '"' :: (a.val.data ++ ['"']) else a.val.data)

/-- Well-formedness of an emitted option: the key is a plain identifier and
the value is delimiter-free. -/
def OptAtom.WF (a : OptAtom) : Prop :=
  (∀ c ∈ a.key.data,
    isPySpace c = false ∧ c ≠ ',' ∧ c ≠ '=' ∧ c ≠ '"' ∧ c ≠ '\'') ∧
  a.key ≠ "" ∧ CleanVal a.val

/-- The option dictionary obtained from a list of atoms. -/
def dictOfAtoms (atoms : List OptAtom) : Dict :=
  atoms.foldl (fun d a => dictSet d a.key (.s a.val)) []

/-- Last-binding lookup over an atom list (Python dictionaries overwrite on
repeated assignment). -/
def lookRA : List OptAtom → String → Option String
  | [], _ => none
  | a :: as, k =>
    match lookRA as k with
    | some v => some v
    | none => if a.key = k then some a.val else none

/-- The full generated line for a device text plus a non-empty option list. -/
def mkLine (pfx : String) (atoms : List OptAtom) : String :=
  pfx ++ ":" ++ joinStr "," (atoms.map (fun a => String.mk a.chunk))

/-- The options `_generate_source_line` emits for a WiFi spec, as atoms,
with exactly the generator's conditions. -/
def wifiAtoms (w : WiFiSpec) : List OptAtom :=
  (if pvNe (.s w.name) (.s w.interface) then [⟨"name", w.name, false⟩] else [])
    ++ (if ¬ pvTruthy (.b w.channel_hop) then [⟨"channel_hop", "false", false⟩]
        else if pvTruthy (.s w.channel_hop_rate)
            && pvNe (.s w.channel_hop_rate) (.s "5/sec") then
          [⟨"channel_hoprate", w.channel_hop_rate, false⟩]
        else [])
    ++ (if pvTruthy (.s w.channel) then
          [⟨"channel", w.channel, false⟩]
            ++ (if pvTruthy (.b w.channel_hop) then [⟨"channel_hop", "false", false⟩] else [])
        else [])
    ++ (if pvTruthy (.s w.channels) then [⟨"channels", w.channels, true⟩] else [])
    ++ (if pvTruthy (.b w.band24ghz) then [⟨"band24ghz", "true", false⟩] else [])
    ++ (if pvTruthy (.b w.band5ghz) then [⟨"band5ghz", "true", false⟩] else [])
    ++ (if pvTruthy (.b w.band6ghz) then [⟨"band6ghz", "true", false⟩] else [])
    ++ (if ¬ pvTruthy (.b w.ht_channels) then [⟨"ht_channels", "false", false⟩] else [])
    ++ (if ¬ pvTruthy (.b w.vht_channels) then [⟨"vht_channels", "false", false⟩] else [])

/-- The options `_generate_source_line` emits for a non-`hci` Bluetooth
spec (the `bluetooth:` shape). -/
def btAtoms (b : BTSpec) : List OptAtom :=
  (if pvTruthy (.s b.interface) then [⟨"device", b.interface, false⟩] else [])
    ++ (if pvNe (.s b.name) (.s "bluetooth") then [⟨"name", b.name, false⟩] else [])

/-- The options `_generate_source_line` emits for an SDR spec. -/
def sdrAtoms (r : SDRSpec) : List OptAtom :=
  [⟨"type", "rtl433", false⟩]
    ++ (if pvTruthy (.s r.frequency) then [⟨"channel", r.frequency, false⟩] else [])
    ++ (if pvTruthy (.s r.name) && pvNe (.s r.name) (.s r.device) then
          [⟨"name", r.name, false⟩]
        else [])
    ++ (if pvTruthy (.s r.gain) then [⟨"gain", r.gain, false⟩] else [])
    ++ (if pvTruthy (.s r.ppm_error) then [⟨"ppm_error", r.ppm_error, false⟩] else [])

/-- Character-level counterpart of `joinStr`. -/
def joinL (sep : List Char) : List (List Char) → List Char
  | [] => []
  | [x] => x
  | x :: y :: xs => x ++ sep ++ joinL sep (y :: xs)

/-! ## Basic lemmas about the string primitives -/

theorem strExt {a b : String} (h : a.data = b.data) : a = b := congrArg String.mk h

theorem dropWhile_eq_self_of {p : Char → Bool} {l : List Char}
    (h : ∀ x ∈ l, p x = false) : l.dropWhile p = l := by
  cases l with
  | nil => rfl
  | cons x xs => simp [List.dropWhile_cons, h x (by simp)]

theorem pyStripL_clean {l : List Char} (h : ∀ x ∈ l, isPySpace x = false) :
    pyStripL l = l := by
  unfold pyStripL
  rw [dropWhile_eq_self_of h,
    dropWhile_eq_self_of (fun x hx => h x (List.mem_reverse.mp hx)),
    List.reverse_reverse]

theorem stripCharL_not_mem {c : Char} {l : List Char} (h : c ∉ l) :
    stripCharL c l = l := by
  have hb : ∀ x ∈ l, decide (x = c) = false := by
    intro x hx
    simp only [decide_eq_false_iff_not]
    exact fun e => h (e ▸ hx)
  unfold stripCharL
  rw [dropWhile_eq_self_of hb,
    dropWhile_eq_self_of (fun x hx => hb x (List.mem_reverse.mp hx)),
    List.reverse_reverse]

theorem stripCharL_wrap {c : Char} {l : List Char} (h : c ∉ l) :
    stripCharL c (c :: (l ++ [c])) = l := by
  have hb : ∀ x ∈ l, decide (x = c) = false := by
    intro x hx
    simp only [decide_eq_false_iff_not]
    exact fun e => h (e ▸ hx)
  unfold stripCharL
  rw [List.dropWhile_cons]
  simp only [decide_True, if_true]
  cases l with
  | nil => simp
  | cons a as =>
    have ha : decide (a = c) = false := hb a (by simp)
    rw [List.cons_append, List.dropWhile_cons]
    simp only [ha, Bool.false_eq_true, if_false]
    rw [show (a :: (as ++ [c]) : List Char).reverse = c :: (a :: as).reverse by simp]
    rw [List.dropWhile_cons]
    simp only [decide_True, if_true]
    rw [dropWhile_eq_self_of (fun x hx => hb x (List.mem_reverse.mp hx)),
      List.reverse_reverse]

theorem splitFirstL_append {c : Char} {l₁ : List Char} (l₂ : List Char)
    (h : c ∉ l₁) : splitFirstL c (l₁ ++ c :: l₂) = some (l₁, l₂) := by
  induction l₁ with
  | nil => simp [splitFirstL]
  | cons a as ih =>
    have ha : a ≠ c := fun e => h (by simp [e])
    rw [List.cons_append]
    show (if a = c then some ([], as ++ c :: l₂)
          else (splitFirstL c (as ++ c :: l₂)).map (fun p => (a :: p.1, p.2))) = _
    rw [if_neg ha, ih (fun hc => h (by simp [hc]))]
    rfl

theorem splitFirstL_not_mem {c : Char} {l : List Char} (h : c ∉ l) :
    splitFirstL c l = none := by
  induction l with
  | nil => rfl
  | cons a as ih =>
    have ha : a ≠ c := fun e => h (by simp [e])
    show (if a = c then some ([], as)
          else (splitFirstL c as).map (fun p => (a :: p.1, p.2))) = _
    rw [if_neg ha, ih (fun hc => h (by simp [hc]))]
    rfl

theorem splitAllL_not_mem {c : Char} {l : List Char} (h : c ∉ l) :
    splitAllL c l = [l] := by
  induction l with
  | nil => rfl
  | cons a as ih =>
    have ha : a ≠ c := fun e => h (by simp [e])
    show (if a = c then [] :: splitAllL c as
          else match splitAllL c as with
               | [] => [[a]]
               | h :: t => (a :: h) :: t) = _
    rw [if_neg ha, ih (fun hc => h (by simp [hc]))]

theorem splitAllL_append_cons {c : Char} {l₁ : List Char} (rest : List Char)
    (h : c ∉ l₁) : splitAllL c (l₁ ++ c :: rest) = l₁ :: splitAllL c rest := by
  induction l₁ with
  | nil => simp [splitAllL]
  | cons a as ih =>
    have ha : a ≠ c := fun e => h (by simp [e])
    rw [List.cons_append]
    show (if a = c then [] :: splitAllL c (as ++ c :: rest)
          else match splitAllL c (as ++ c :: rest) with
               | [] => [[a]]
               | h :: t => (a :: h) :: t) = _
    rw [if_neg ha, ih (fun hc => h (by simp [hc]))]

theorem splitAllL_join {c : Char} {parts : List (List Char)}
    (h : ∀ x ∈ parts, c ∉ x) (hne : parts ≠ []) :
    splitAllL c (joinL [c] (parts)) = parts := by
  induction parts with
  | nil => exact absurd rfl hne
  | cons x xs ih =>
    cases xs with
    | nil => exact splitAllL_not_mem (h x (by simp))
    | cons y ys =>
      show splitAllL c (x ++ [c] ++ joinL [c] (y :: ys)) = _
      rw [List.append_assoc, List.singleton_append,
        splitAllL_append_cons _ (h x (by simp)),
        ih (fun z hz => h z (by simp [hz])) (by simp)]

theorem joinStr_data (sep : String) (l : List String) :
    (joinStr sep l).data = joinL sep.data (l.map (·.data)) := by
  induction l with
  | nil => rfl
  | cons x xs ih =>
    cases xs with
    | nil => rfl
    | cons y ys =>
      show (x ++ sep ++ joinStr sep (y :: ys)).data = x.data ++ sep.data ++ _
      rw [String.data_append, String.data_append, ih]
      rfl

/-! ## Claim C1 — parsing a fixed-channel WiFi line -/

/-- Claim C1 counterexample: parsing `"wlan0:channel=6,band6ghz=true"` does
NOT force `channel_hop=false` at parse time — the parsed `channel_hop` is the
default `True`, because no `channel_hop` option occurs in the line (the
forcing happens in `_generate_source_line`, not in the parser). -/
theorem c1_counterexample :
    (parseSourceLine "wlan0:channel=6,band6ghz=true").bind
        (fun d => pyGet d "channel_hop") = some (.b true) ∧
    (parseSourceLine "wlan0:channel=6,band6ghz=true").bind
        (fun d => pyGet d "channel_hop") ≠ some (.b false) := by
  exact ⟨rfl, by decide⟩

/-- Claim C1 (amended): parsing `"wlan0:channel=6,band6ghz=true"` yields a
WiFi source with interface `wlan0`, name `wlan0`, channel `6`,
`channel_hop=true` (the parse-time default; a fixed channel does not turn
hopping off at parse time), `band24=true`, `band5=true`, `band6=true`. -/
theorem c1_amended :
    parseSourceLine "wlan0:channel=6,band6ghz=true" =
      some (WiFiSpec.toDict
        { interface := "wlan0", name := "wlan0", channel := "6", channels := ""
          channel_hop := true, channel_hop_rate := "5/sec", ht_channels := true
          vht_channels := true, band24ghz := true, band5ghz := true
          band6ghz := true }) := by
  rfl

/-! ## Claim C7 — the rtl433 scenario pair -/

/-- Claim C7: parsing `"rtl433-0:type=rtl433,channel=433920000,name=test"`
yields exactly the SDR spec with device `rtl433-0`, name `test`, frequency
`433920000`; and generating that spec yields exactly the same directive
text (options in the fixed order `type`, `channel`, `name`). -/
theorem c7_rtl433_scenarios :
    parseSourceLine "rtl433-0:type=rtl433,channel=433920000,name=test" =
      some (SDRSpec.toDict
        { device := "rtl433-0", name := "test", frequency := "433920000"
          gain := "", ppm_error := "" }) ∧
    generateSourceLine (SDRSpec.toDict
        { device := "rtl433-0", name := "test", frequency := "433920000"
          gain := "", ppm_error := "" }) =
      some "rtl433-0:type=rtl433,channel=433920000,name=test" := by
  exact ⟨rfl, rfl⟩

/-! ## Claim C5 — grid-coordinate conversion fallbacks -/

/-- Claim C5: the conversion returns the fixed fallback `(40.7128, -74.0060)`
for the empty string, for `"1A"` (too short), for `"61ABC1234"` (zone 61 out
of range), and for every coordinate whose structure parses but whose
trailing easting/northing digits have odd count; the function is total, so
no input raises to the caller. -/
theorem c5_mgrs_fallback :
    mgrsToLatLon "" = fallbackCoord ∧
    mgrsToLatLon "1A" = fallbackCoord ∧
    mgrsToLatLon "61ABC1234" = fallbackCoord ∧
    ∀ s : String,
      (5 ≤ (mgrsNormalize s).length ∧
       (mgrsNormalize s).takeWhile Char.isDigit ≠ [] ∧
       1 ≤ digitsToNat ((mgrsNormalize s).takeWhile Char.isDigit) ∧
       digitsToNat ((mgrsNormalize s).takeWhile Char.isDigit) ≤ 60 ∧
       3 ≤ ((mgrsNormalize s).dropWhile Char.isDigit).length ∧
       (∀ c ∈ ((mgrsNormalize s).dropWhile Char.isDigit).drop 3, c.isDigit) ∧
       (((mgrsNormalize s).dropWhile Char.isDigit).drop 3).length % 2 = 1) →
      mgrsToLatLon s = fallbackCoord := by
  refine ⟨rfl, rfl, rfl, ?_⟩
  intro s h
  obtain ⟨h1, h2, h3, h4, h5, _h6, h7⟩ := h
  unfold mgrsToLatLon
  suffices hc : mgrsCore (mgrsNormalize s) = none by rw [hc]; rfl
  unfold mgrsCore
  rw [if_neg (by omega)]
  simp only []
  rw [if_neg h2]
  rw [if_neg (by push_neg; omega)]
  cases hrest : (mgrsNormalize s).dropWhile Char.isDigit with
  | nil => rfl
  | cons zl rest1 =>
    rw [hrest] at h5 h7
    simp only [List.length_cons] at h5
    simp only [List.drop_succ_cons] at h7
    simp only []
    rw [if_neg (by omega)]
    rw [if_pos (by omega)]

/-- Claim C5 witness: `"18TWL123"` satisfies the structural hypothesis of
the odd-digit-count case and converts to the fallback. -/
theorem c5_witness :
    (5 ≤ (mgrsNormalize "18TWL123").length ∧
     (mgrsNormalize "18TWL123").takeWhile Char.isDigit ≠ [] ∧
     1 ≤ digitsToNat ((mgrsNormalize "18TWL123").takeWhile Char.isDigit) ∧
     digitsToNat ((mgrsNormalize "18TWL123").takeWhile Char.isDigit) ≤ 60 ∧
     3 ≤ ((mgrsNormalize "18TWL123").dropWhile Char.isDigit).length ∧
     (∀ c ∈ ((mgrsNormalize "18TWL123").dropWhile Char.isDigit).drop 3, c.isDigit) ∧
     (((mgrsNormalize "18TWL123").dropWhile Char.isDigit).drop 3).length % 2 = 1) ∧
    mgrsToLatLon "18TWL123" = fallbackCoord :=
  ⟨by decide, c5_mgrs_fallback.2.2.2 "18TWL123" (by decide)⟩

/-! ## Claim C8 — GPS-daemon defaults generation -/

/-- Claim C8: the generated GPS-daemon defaults content is always the fixed
four-line block in which only the `DEVICES=` value varies; for Remote mode it
is `udp://<host>:<port>` (in particular `udp://0.0.0.0:4545` for the scenario
values), and for every non-Remote mode it is the fixed device-glob string. -/
theorem c8_gpsd_defaults :
    (∀ cfg : ConfigData,
      generateGpsdDefaults cfg =
        "START_DAEMON=\"true\"\nUSBAUTO=\"true\"\nGPSD_OPTIONS=\"-n\"\nDEVICES=\""
          ++ (if cfg.gps_type = "remote" then
                "udp://" ++ cfg.gps_remote_host ++ ":" ++ cfg.gps_remote_port
              else "/dev/ttyUSB0 /dev/ttyACM0")
          ++ "\"\n") ∧
    (∀ cfg : ConfigData, cfg.gps_type = "remote" → cfg.gps_remote_host = "0.0.0.0" →
      cfg.gps_remote_port = "4545" →
      generateGpsdDefaults cfg =
        "START_DAEMON=\"true\"\nUSBAUTO=\"true\"\nGPSD_OPTIONS=\"-n\"\nDEVICES=\"udp://0.0.0.0:4545\"\n") ∧
    (∀ cfg : ConfigData, cfg.gps_type ≠ "remote" →
      generateGpsdDefaults cfg =
        "START_DAEMON=\"true\"\nUSBAUTO=\"true\"\nGPSD_OPTIONS=\"-n\"\nDEVICES=\"/dev/ttyUSB0 /dev/ttyACM0\"\n") := by
  refine ⟨?_, ?_, ?_⟩
  · intro cfg
    by_cases h : cfg.gps_type = "remote" <;>
      simp only [generateGpsdDefaults, joinStr, h, if_true, if_false] <;>
      apply congrArg String.mk <;>
      simp [String.data_append]
  · intro cfg h hh hp
    simp only [generateGpsdDefaults, joinStr, h, hh, hp, if_true]
    apply congrArg String.mk
    simp [String.data_append]
  · intro cfg h
    simp only [generateGpsdDefaults, joinStr, h, if_false]
    apply congrArg String.mk
    simp [String.data_append]

/-- Claim C8 witness: a concrete Remote document produces the scenario
`DEVICES` line, and a concrete non-Remote document the device-glob line. -/
theorem c8_witness :
    generateGpsdDefaults
        { wardrive_mode := false, data_sources := [], gps_type := "remote"
          gps_host := "localhost", gps_port := "2947", coord_format := "latlon"
          gps_mgrs := "", gps_alt_mgrs := "", gps_lat := "", gps_lon := ""
          gps_alt := "", gps_remote_host := "0.0.0.0", gps_remote_port := "4545"
          logging_config :=
            { log_types := ["kismet"], log_dir := "/home/user/kismet"
              log_title := "Kismet_Survey", pcapng_log_max_mb := 0
              pcapng_log_duplicate_packets := true, pcapng_log_data_packets := true }
          device_alerts :=
            { device_found_macs := [], device_lost_macs := []
              device_found_timeout := "", device_lost_timeout := "" } } =
      "START_DAEMON=\"true\"\nUSBAUTO=\"true\"\nGPSD_OPTIONS=\"-n\"\nDEVICES=\"udp://0.0.0.0:4545\"\n" ∧
    generateGpsdDefaults
        { wardrive_mode := false, data_sources := [], gps_type := "disabled"
          gps_host := "localhost", gps_port := "2947", coord_format := "latlon"
          gps_mgrs := "", gps_alt_mgrs := "", gps_lat := "", gps_lon := ""
          gps_alt := "", gps_remote_host := "0.0.0.0", gps_remote_port := "4545"
          logging_config :=
            { log_types := ["kismet"], log_dir := "/home/user/kismet"
              log_title := "Kismet_Survey", pcapng_log_max_mb := 0
              pcapng_log_duplicate_packets := true, pcapng_log_data_packets := true }
          device_alerts :=
            { device_found_macs := [], device_lost_macs := []
              device_found_timeout := "", device_lost_timeout := "" } } =
      "START_DAEMON=\"true\"\nUSBAUTO=\"true\"\nGPSD_OPTIONS=\"-n\"\nDEVICES=\"/dev/ttyUSB0 /dev/ttyACM0\"\n" :=
  ⟨c8_gpsd_defaults.2.1 _ rfl rfl rfl, c8_gpsd_defaults.2.2 _ (by decide)⟩

/-! ## Claim C6 — survey-mode generation scenario -/

/-- Claim C6: generating configuration text for a document with survey mode
on and `log_types=["kismet"]` produces output containing the line
`dot11_ap_only_survey=true` and a log-types line whose value is exactly
`kismet,wiglecsv` (the export type is appended after the existing entry). -/
theorem c6_survey_generation :
    ∀ (now : String) (cfg : ConfigData),
      cfg.wardrive_mode = true →
      cfg.logging_config.log_types = ["kismet"] →
      "dot11_ap_only_survey=true" ∈ (configLines now cfg).1 ∧
      "log_types=kismet,wiglecsv" ∈ (configLines now cfg).1 := by
  intro now cfg h1 h2
  constructor
  · have hb : "dot11_ap_only_survey=true" ∈ wardriveBundle := by decide
    simp only [configLines, h1, if_true, List.mem_append]
    tauto
  · simp only [configLines, h1, h2, if_true, List.mem_append]
    simp [joinStr]

/-- Claim C6 witness: a concrete survey-mode document with
`log_types=["kismet"]` contains both lines. -/
theorem c6_witness :
    "dot11_ap_only_survey=true" ∈
      (configLines "Mon"
        { wardrive_mode := true, data_sources := [], gps_type := "disabled"
          gps_host := "localhost", gps_port := "2947", coord_format := "latlon"
          gps_mgrs := "", gps_alt_mgrs := "", gps_lat := "", gps_lon := ""
          gps_alt := "", gps_remote_host := "0.0.0.0", gps_remote_port := "4545"
          logging_config :=
            { log_types := ["kismet"], log_dir := "/home/user/kismet"
              log_title := "Kismet_Survey", pcapng_log_max_mb := 0
              pcapng_log_duplicate_packets := true, pcapng_log_data_packets := true }
          device_alerts :=
            { device_found_macs := [], device_lost_macs := []
              device_found_timeout := "", device_lost_timeout := "" } }).1 ∧
    "log_types=kismet,wiglecsv" ∈
      (configLines "Mon"
        { wardrive_mode := true, data_sources := [], gps_type := "disabled"
          gps_host := "localhost", gps_port := "2947", coord_format := "latlon"
          gps_mgrs := "", gps_alt_mgrs := "", gps_lat := "", gps_lon := ""
          gps_alt := "", gps_remote_host := "0.0.0.0", gps_remote_port := "4545"
          logging_config :=
            { log_types := ["kismet"], log_dir := "/home/user/kismet"
              log_title := "Kismet_Survey", pcapng_log_max_mb := 0
              pcapng_log_duplicate_packets := true, pcapng_log_data_packets := true }
          device_alerts :=
            { device_found_macs := [], device_lost_macs := []
              device_found_timeout := "", device_lost_timeout := "" } }).1 :=
  c6_survey_generation "Mon" _ rfl rfl

/-! ## Claim C10 — generation mutates the document's log-types list -/

/-- Claim C10: generation is not pure in the document — with survey mode on
and `wiglecsv` absent from `log_types`, the returned document state has
`wiglecsv` appended to `log_types` in place, every other field unchanged
(the single-field structure update captures this), the state differs from
the input, and a second generation leaves the state fixed (it already sees
the appended entry). -/
theorem c10_generation_mutation :
    ∀ (now : String) (cfg : ConfigData),
      cfg.wardrive_mode = true →
      "wiglecsv" ∉ cfg.logging_config.log_types →
      (generateConfigContent now cfg).2 =
        { cfg with logging_config :=
            { cfg.logging_config with
                log_types := cfg.logging_config.log_types ++ ["wiglecsv"] } } ∧
      (generateConfigContent now cfg).2 ≠ cfg ∧
      (generateConfigContent now ((generateConfigContent now cfg).2)).2 =
        (generateConfigContent now cfg).2 := by
  intro now cfg h1 h2
  have hmut : (generateConfigContent now cfg).2 =
      { cfg with logging_config :=
          { cfg.logging_config with
              log_types := cfg.logging_config.log_types ++ ["wiglecsv"] } } := by
    simp [generateConfigContent, configLines, h1, h2]
  refine ⟨hmut, ?_, ?_⟩
  · rw [hmut]
    intro he
    have := congrArg (fun c : ConfigData => c.logging_config.log_types.length) he
    simp at this
  · rw [hmut]
    simp [generateConfigContent, configLines, h1]

/-- Claim C10 witness: concrete mutation, difference, and idempotence. -/
theorem c10_witness :
    ((generateConfigContent "Mon"
        { wardrive_mode := true, data_sources := [], gps_type := "disabled"
          gps_host := "localhost", gps_port := "2947", coord_format := "latlon"
          gps_mgrs := "", gps_alt_mgrs := "", gps_lat := "", gps_lon := ""
          gps_alt := "", gps_remote_host := "0.0.0.0", gps_remote_port := "4545"
          logging_config :=
            { log_types := ["kismet"], log_dir := "/home/user/kismet"
              log_title := "Kismet_Survey", pcapng_log_max_mb := 0
              pcapng_log_duplicate_packets := true, pcapng_log_data_packets := true }
          device_alerts :=
            { device_found_macs := [], device_lost_macs := []
              device_found_timeout := "", device_lost_timeout := "" } }).2).logging_config.log_types
      = ["kismet", "wiglecsv"] := by
  have h := (c10_generation_mutation "Mon"
    { wardrive_mode := true, data_sources := [], gps_type := "disabled"
      gps_host := "localhost", gps_port := "2947", coord_format := "latlon"
      gps_mgrs := "", gps_alt_mgrs := "", gps_lat := "", gps_lon := ""
      gps_alt := "", gps_remote_host := "0.0.0.0", gps_remote_port := "4545"
      logging_config :=
        { log_types := ["kismet"], log_dir := "/home/user/kismet"
          log_title := "Kismet_Survey", pcapng_log_max_mb := 0
          pcapng_log_duplicate_packets := true, pcapng_log_data_packets := true }
      device_alerts :=
        { device_found_macs := [], device_lost_macs := []
          device_found_timeout := "", device_lost_timeout := "" } }
    rfl (by decide)).1
  rw [h]
  rfl

/-! ## Dictionary evaluation lemmas -/

theorem pyGet_nil (k : String) : pyGet [] k = none := rfl

theorem pyGet_cons (k k' : String) (v : PVal) (rest : Dict) :
    pyGet ((k, v) :: rest) k' = if k = k' then some v else pyGet rest k' := by
  by_cases h : k = k' <;> simp [pyGet, List.find?, h]

/-! ## Claim C3 — the parse-output invariant -/

/-- What actually holds of every successful parse: the `name` defaults to
the pre-colon text when no `name` option is given; the WiFi `interface` is
exactly the pre-colon text; the SDR `device` is truthy whenever the
pre-colon text is non-empty. -/
theorem parseCore_invariants (pfx : String) (opts : Dict) (d : Dict)
    (hd : parseCore pfx opts = some d) (hname : pyGet opts "name" = none) :
    (pyGet d "name" = some (.s pfx)) ∧
    (pyGet d "type" = some (.s "wifi") → pyGet d "interface" = some (.s pfx)) ∧
    (pyGet d "type" = some (.s "rtl433") → pfx ≠ "" →
      ∃ v, pyGet d "device" = some v ∧ pvTruthy v = true) := by
  unfold parseCore at hd
  dsimp only at hd
  split at hd
  · exact absurd hd (by simp)
  · rw [Option.some_inj] at hd
    subst hd
    refine ⟨?_, ?_, ?_⟩
    · simp [btSrc, pyGet_cons, hname]
    · intro ht
      simp [btSrc, pyGet_cons] at ht
    · intro ht
      simp [btSrc, pyGet_cons] at ht
  · split at hd
    · exact absurd hd (by simp)
    · rw [Option.some_inj] at hd
      subst hd
      refine ⟨?_, ?_, ?_⟩
      · simp [rtlSrc, pyGet_cons, hname]
      · intro ht
        simp [rtlSrc, pyGet_cons] at ht
      · intro _ hpfx
        cases hdev : pyGet opts "device" with
        | none =>
          refine ⟨.s pfx, ?_, ?_⟩
          · simp [rtlSrc, pyGet_cons, hdev]
          · simp [pvTruthy, hpfx]
        | some v =>
          by_cases hv : pvTruthy v
          · refine ⟨v, ?_, hv⟩
            simp [rtlSrc, pyGet_cons, hdev, hv]
          · refine ⟨.s pfx, ?_, ?_⟩
            · simp [rtlSrc, pyGet_cons, hdev, hv]
            · simp [pvTruthy, hpfx]
    · unfold wifiSrc at hd
      dsimp only at hd
      split at hd
      · exact absurd hd (by simp)
      · rw [Option.some_inj] at hd
        subst hd
        refine ⟨?_, ?_, ?_⟩
        · simp [pyGet_cons, hname]
        · intro _
          simp [pyGet_cons]
        · intro ht
          simp [pyGet_cons] at ht

/-- Claim C3 counterexample: parsing `"bluetooth"` succeeds with an EMPTY
identifying field (`interface = ""`), and parsing `"bluetooth:device=hci0"`
succeeds with `name = "bluetooth"` different from the identifying field
`hci0` although no explicit `name` option was given — both conjuncts of the
claimed invariant fail. -/
theorem c3_counterexample :
    parseSourceLine "bluetooth" =
      some [("type", .s "bluetooth"), ("name", .s "bluetooth"), ("interface", .s "")] ∧
    parseSourceLine "bluetooth:device=hci0" =
      some [("type", .s "bluetooth"), ("name", .s "bluetooth"), ("interface", .s "hci0")] :=
  ⟨rfl, rfl⟩

/-- Claim C3 (amended): for every successful parse, `name` defaults to the
pre-colon prefix (not to the identifying field) when no `name` option is
given; the WiFi identifying field equals that prefix (hence non-empty
exactly when the prefix is); the SDR `device` is truthy whenever the prefix
is non-empty; the Bluetooth `interface` may be empty or differ from the
defaulted name. -/
theorem c3_amended :
    ∀ (line : String) (d : Dict), parseSourceLine line = some d →
      ∃ pfx opts, lineParts line = some (pfx, opts) ∧
        (pyGet opts "name" = none → pyGet d "name" = some (.s pfx)) ∧
        (pyGet opts "name" = none → pyGet d "type" = some (.s "wifi") →
          pyGet d "interface" = some (.s pfx)) ∧
        (pyGet opts "name" = none → pyGet d "type" = some (.s "rtl433") → pfx ≠ "" →
          ∃ v, pyGet d "device" = some v ∧ pvTruthy v = true) := by
  intro line d hd
  unfold parseSourceLine at hd
  cases hlp : lineParts line with
  | none => rw [hlp] at hd; exact absurd hd (by simp)
  | some pc =>
    rw [hlp] at hd
    refine ⟨pc.1, pc.2, by simp [hlp], ?_, ?_, ?_⟩
    · intro hname
      exact (parseCore_invariants pc.1 pc.2 d hd hname).1
    · intro hname ht
      exact (parseCore_invariants pc.1 pc.2 d hd hname).2.1 ht
    · intro hname ht hpfx
      exact (parseCore_invariants pc.1 pc.2 d hd hname).2.2 ht hpfx

/-- Claim C3 witness: the amended invariant applied to the concrete line
`"wlan1:channel=3"`. -/
theorem c3_witness :
    ∃ pfx opts, lineParts "wlan1:channel=3" = some (pfx, opts) ∧
      (pyGet opts "name" = none →
        pyGet (WiFiSpec.toDict
          { interface := "wlan1", name := "wlan1", channel := "3", channels := ""
            channel_hop := true, channel_hop_rate := "5/sec", ht_channels := true
            vht_channels := true, band24ghz := true, band5ghz := true
            band6ghz := false }) "name" = some (.s pfx)) ∧
      (pyGet opts "name" = none →
        pyGet (WiFiSpec.toDict
          { interface := "wlan1", name := "wlan1", channel := "3", channels := ""
            channel_hop := true, channel_hop_rate := "5/sec", ht_channels := true
            vht_channels := true, band24ghz := true, band5ghz := true
            band6ghz := false }) "type" = some (.s "wifi") →
        pyGet (WiFiSpec.toDict
          { interface := "wlan1", name := "wlan1", channel := "3", channels := ""
            channel_hop := true, channel_hop_rate := "5/sec", ht_channels := true
            vht_channels := true, band24ghz := true, band5ghz := true
            band6ghz := false }) "interface" = some (.s pfx)) ∧
      (pyGet opts "name" = none →
        pyGet (WiFiSpec.toDict
          { interface := "wlan1", name := "wlan1", channel := "3", channels := ""
            channel_hop := true, channel_hop_rate := "5/sec", ht_channels := true
            vht_channels := true, band24ghz := true, band5ghz := true
            band6ghz := false }) "type" = some (.s "rtl433") → pfx ≠ "" →
        ∃ v, pyGet (WiFiSpec.toDict
          { interface := "wlan1", name := "wlan1", channel := "3", channels := ""
            channel_hop := true, channel_hop_rate := "5/sec", ht_channels := true
            vht_channels := true, band24ghz := true, band5ghz := true
            band6ghz := false }) "device" = some v ∧ pvTruthy v = true) :=
  c3_amended "wlan1:channel=3" _ rfl

/-! ## Claim C4 — survey-mode marker versus legacy signals -/

/-- Splitting the line fold of `_parse_config_file` at any point. -/
theorem configFoldAppend (l1 l2 : List (List Char)) (c : ParsedConfig) :
    (l1 ++ l2).foldlM (fun c l => parseConfigLine c (String.mk l)) c =
      (l1.foldlM (fun c l => parseConfigLine c (String.mk l)) c).bind
        (fun c' => l2.foldlM (fun c l => parseConfigLine c (String.mk l)) c') := by
  induction l1 generalizing c with
  | nil => rfl
  | cons x xs ih =>
    rw [List.cons_append, List.foldlM_cons, List.foldlM_cons]
    cases hfx : parseConfigLine c (String.mk x) with
    | error e => simp [Bind.bind, Except.bind]
    | ok c1 => simp [Bind.bind, Except.bind, ih]

/-- A `gpsd:` parameter never touches the wardrive flag. -/
theorem gpsdParamApply_wardrive (c : ParsedConfig) (param : List Char) (c' : ParsedConfig)
    (h : gpsdParamApply c param = .ok c') : c'.wardrive_mode = c.wardrive_mode := by
  unfold gpsdParamApply at h
  split at h
  · rw [Except.ok.injEq] at h; subst h; rfl
  · split at h
    · split at h
      · rw [Except.ok.injEq] at h; subst h; rfl
      · exact absurd h (by simp)
    · rw [Except.ok.injEq] at h; subst h; rfl

/-- The `gpsd:` parameter fold never touches the wardrive flag. -/
theorem gpsdFold_wardrive (params : List (List Char)) :
    ∀ (c c' : ParsedConfig), params.foldlM gpsdParamApply c = .ok c' →
      c'.wardrive_mode = c.wardrive_mode := by
  induction params with
  | nil =>
    intro c c' h
    have h' : (Except.ok c : Except Unit ParsedConfig) = .ok c' := h
    rw [Except.ok.injEq] at h'
    subst h'
    rfl
  | cons p ps ih =>
    intro c c' h
    rw [List.foldlM_cons] at h
    cases hp : gpsdParamApply c p with
    | error e => rw [hp] at h; exact absurd h (by simp [Bind.bind, Except.bind])
    | ok c1 =>
      rw [hp] at h
      have h2 : ps.foldlM gpsdParamApply c1 = .ok c' := h
      rw [ih c1 c' h2, gpsdParamApply_wardrive c p c1 hp]

/-- A `virtual:` parameter never touches the wardrive flag. -/
theorem virtualParamApply_wardrive (c : ParsedConfig) (param : List Char) :
    (virtualParamApply c param).wardrive_mode = c.wardrive_mode := by
  unfold virtualParamApply
  split
  · rfl
  · split
    · rfl
    · split
      · rfl
      · rfl

/-- The `virtual:` parameter fold never touches the wardrive flag. -/
theorem virtualFold_wardrive (params : List (List Char)) :
    ∀ c : ParsedConfig, (params.foldl virtualParamApply c).wardrive_mode = c.wardrive_mode := by
  induction params with
  | nil => intro c; rfl
  | cons p ps ih => intro c; rw [List.foldl_cons, ih, virtualParamApply_wardrive]

/-- Effect of one non-marker line on the wardrive flag: it is set to true by
an effective legacy line and preserved by every other line. -/
theorem parseConfigLine_wardrive (c : ParsedConfig) (raw : String) (c' : ParsedConfig)
    (hm : isMarkerLine raw = false)
    (h : parseConfigLine c raw = .ok c') :
    c'.wardrive_mode = (c.wardrive_mode || isLegacySurveyLine raw) := by
  have hm' : "# WARDRIVE_MODE=".data.isPrefixOf (pyStripL raw.data) = false := hm
  unfold parseConfigLine at h
  unfold isLegacySurveyLine
  dsimp only at h ⊢
  rw [if_neg (by simp [hm'])] at h
  rw [if_neg (by simp [hm'])]
  by_cases hc : (decide (pyStripL raw.data = []) || "#".data.isPrefixOf (pyStripL raw.data)) = true
  · rw [if_pos hc] at h
    rw [if_pos hc]
    rw [Except.ok.injEq] at h
    subst h
    simp
  · rw [if_neg hc] at h
    rw [if_neg hc]
    cases hsp : splitFirstL '=' (pyStripL raw.data) with
    | none =>
      rw [hsp] at h
      rw [Except.ok.injEq] at h
      subst h
      simp
    | some kv =>
      rw [hsp] at h
      dsimp only at h ⊢
      by_cases hk1 : String.mk (pyStripL kv.1) = "source"
      · rw [if_pos hk1] at h
        cases hps : parseSourceLine (String.mk (pyStripL kv.2)) with
        | some src =>
          rw [hps] at h; rw [Except.ok.injEq] at h; subst h; simp [hk1]
        | none =>
          rw [hps] at h; rw [Except.ok.injEq] at h; subst h; simp [hk1]
      · rw [if_neg hk1] at h
        by_cases hk2 : String.mk (pyStripL kv.1) = "gps"
        · rw [if_pos hk2] at h
          by_cases hg1 : pyStartsWith (String.mk (pyStripL kv.2)) "gpsd:" = true
          · rw [if_pos hg1] at h
            rw [gpsdFold_wardrive _ _ _ h]
            simp [hk2]
          · rw [if_neg hg1] at h
            by_cases hg2 : pyStartsWith (String.mk (pyStripL kv.2)) "virtual:" = true
            · rw [if_pos hg2] at h
              rw [Except.ok.injEq] at h
              subst h
              rw [virtualFold_wardrive]
              simp [hk2]
            · rw [if_neg hg2] at h
              rw [Except.ok.injEq] at h
              subst h
              simp [hk2]
        · rw [if_neg hk2] at h
          by_cases hk3 : String.mk (pyStripL kv.1) = "log_types"
          · rw [if_pos hk3] at h; rw [Except.ok.injEq] at h; subst h; simp [hk3]
          · rw [if_neg hk3] at h
            by_cases hk4 : String.mk (pyStripL kv.1) = "log_prefix"
            · rw [if_pos hk4] at h; rw [Except.ok.injEq] at h; subst h; simp [hk4]
            · rw [if_neg hk4] at h
              by_cases hk5 : String.mk (pyStripL kv.1) = "log_title"
              · rw [if_pos hk5] at h; rw [Except.ok.injEq] at h; subst h; simp [hk5]
              · rw [if_neg hk5] at h
                by_cases hk6 : String.mk (pyStripL kv.1) = "pcapng_log_max_mb"
                · rw [if_pos hk6] at h
                  cases hpi : pyInt (String.mk (pyStripL kv.2)) with
                  | some n =>
                    rw [hpi] at h; rw [Except.ok.injEq] at h; subst h; simp [hk6]
                  | none => rw [hpi] at h; exact absurd h (by simp)
                · rw [if_neg hk6] at h
                  by_cases hk7 : String.mk (pyStripL kv.1) = "pcapng_log_duplicate_packets"
                  · rw [if_pos hk7] at h; rw [Except.ok.injEq] at h; subst h; simp [hk7]
                  · rw [if_neg hk7] at h
                    by_cases hk8 : String.mk (pyStripL kv.1) = "pcapng_log_data_packets"
                    · rw [if_pos hk8] at h; rw [Except.ok.injEq] at h; subst h; simp [hk8]
                    · rw [if_neg hk8] at h
                      by_cases hk9 : String.mk (pyStripL kv.1) = "dot11_ap_only_survey" ∧
                          lowerStr (String.mk (pyStripL kv.2)) = "true"
                      · rw [if_pos hk9] at h
                        rw [Except.ok.injEq] at h
                        subst h
                        simp [hk9.1, hk9.2]
                      · rw [if_neg hk9] at h
                        by_cases hk10 : String.mk (pyStripL kv.1) = "load_alert" ∧
                            containsSub "WARDRIVING:" (String.mk (pyStripL kv.2)) = true
                        · rw [if_pos hk10] at h
                          rw [Except.ok.injEq] at h
                          subst h
                          simp [hk10.1, hk10.2]
                        · rw [if_neg hk10] at h
                          rw [Except.ok.injEq] at h
                          subst h
                          have hB : (decide (String.mk (pyStripL kv.1) = "dot11_ap_only_survey") &&
                                decide (lowerStr (String.mk (pyStripL kv.2)) = "true") ||
                              decide (String.mk (pyStripL kv.1) = "load_alert") &&
                                containsSub "WARDRIVING:" (String.mk (pyStripL kv.2))) = false := by
                            simp only [Bool.or_eq_false_iff, Bool.and_eq_false_iff,
                              decide_eq_false_iff_not, Bool.not_eq_true]
                            constructor
                            · by_cases ha : String.mk (pyStripL kv.1) = "dot11_ap_only_survey"
                              · exact Or.inr (fun hb => hk9 ⟨ha, hb⟩)
                              · exact Or.inl ha
                            · by_cases ha : String.mk (pyStripL kv.1) = "load_alert"
                              · refine Or.inr ?_
                                cases hcb : containsSub "WARDRIVING:" (String.mk (pyStripL kv.2))
                                · rfl
                                · exact absurd ⟨ha, hcb⟩ hk10
                              · exact Or.inl ha
                          rw [hB]
                          simp

/-- The wardrive flag after folding marker-free lines: the incoming flag
joined with "some effective legacy line occurs". -/
theorem wardriveFold (post : List (List Char)) :
    ∀ (c cfg : ParsedConfig),
      (∀ l ∈ post, isMarkerLine (String.mk l) = false) →
      post.foldlM (fun c l => parseConfigLine c (String.mk l)) c = .ok cfg →
      cfg.wardrive_mode =
        (c.wardrive_mode || post.any (fun l => isLegacySurveyLine (String.mk l))) := by
  induction post with
  | nil =>
    intro c cfg _ h
    have h' : (Except.ok c : Except Unit ParsedConfig) = .ok cfg := h
    rw [Except.ok.injEq] at h'
    subst h'
    simp
  | cons x xs ih =>
    intro c cfg hnm h
    rw [List.foldlM_cons] at h
    cases hx : parseConfigLine c (String.mk x) with
    | error e => rw [hx] at h; exact absurd h (by simp [Bind.bind, Except.bind])
    | ok c1 =>
      rw [hx] at h
      have h2 : xs.foldlM (fun c l => parseConfigLine c (String.mk l)) c1 = .ok cfg := h
      rw [ih c1 cfg (fun l hl => hnm l (by simp [hl])) h2]
      rw [parseConfigLine_wardrive c (String.mk x) c1 (hnm x (by simp)) hx]
      simp [Bool.or_assoc]

/-- Claim C4 counterexample: in a file whose explicit marker says `False`
but which also contains the legacy `dot11_ap_only_survey=true` line AFTER
the marker, the parsed flag is `true`, not the marker's value — the legacy
signals are NOT restricted to files without the explicit marker.  The
marker alone parses to `false`. -/
theorem c4_counterexample :
    (parseConfigFile "# WARDRIVE_MODE=False\ndot11_ap_only_survey=true").map
        ParsedConfig.wardrive_mode = .ok true ∧
    (parseConfigFile "# WARDRIVE_MODE=False").map ParsedConfig.wardrive_mode = .ok false :=
  ⟨rfl, rfl⟩

/-- Claim C4 (amended): lines are processed in order with last-update-wins —
after the last explicit marker line (value `v`), the flag is the marker's
value unless some effective legacy signal line follows it, in which case the
flag is true; legacy lines BEFORE the last marker are overridden by it. -/
theorem c4_amended :
    ∀ (content : String) (pre post : List (List Char)) (m : List Char)
      (kv : List Char × List Char) (cfg : ParsedConfig),
      splitAllL '\n' content.data = pre ++ m :: post →
      isMarkerLine (String.mk m) = true →
      splitFirstL '=' (pyStripL m) = some kv →
      (∀ l ∈ post, isMarkerLine (String.mk l) = false) →
      parseConfigFile content = .ok cfg →
      cfg.wardrive_mode =
        (decide (String.mk (pyStripL kv.2) = "True")
          || post.any (fun l => isLegacySurveyLine (String.mk l))) := by
  intro content pre post m kv cfg hsplit hmark hkv hnm hp
  unfold parseConfigFile at hp
  rw [hsplit, configFoldAppend] at hp
  cases hpre : pre.foldlM (fun c l => parseConfigLine c (String.mk l)) defaultParsedConfig with
  | error e => rw [hpre] at hp; exact absurd hp (by simp [Bind.bind, Except.bind])
  | ok c0 =>
    rw [hpre] at hp
    have hp2 : (m :: post).foldlM (fun c l => parseConfigLine c (String.mk l)) c0 = .ok cfg := hp
    rw [List.foldlM_cons] at hp2
    have hline : parseConfigLine c0 (String.mk m) =
        .ok { c0 with wardrive_mode := String.mk (pyStripL kv.2) = "True" } := by
      have hmark' : ("# WARDRIVE_MODE=".data.isPrefixOf (pyStripL m)) = true := hmark
      unfold parseConfigLine
      dsimp only
      dsimp only at hmark'
      rw [if_pos hmark', hkv]
    rw [hline] at hp2
    have hp3 : post.foldlM (fun c l => parseConfigLine c (String.mk l))
        { c0 with wardrive_mode := String.mk (pyStripL kv.2) = "True" } = .ok cfg := hp2
    rw [wardriveFold post _ cfg hnm hp3]

/-- Claim C4 witness: the amended statement instantiated on the
marker-false-then-legacy file of the counterexample. -/
theorem c4_witness :
    ({ defaultParsedConfig with wardrive_mode := true } : ParsedConfig).wardrive_mode =
      (decide (String.mk (pyStripL "False".data) = "True")
        || [("dot11_ap_only_survey=true".data)].any
            (fun l => isLegacySurveyLine (String.mk l))) :=
  c4_amended "# WARDRIVE_MODE=False\ndot11_ap_only_survey=true"
    [] ["dot11_ap_only_survey=true".data] "# WARDRIVE_MODE=False".data
    ("# WARDRIVE_MODE".data, "False".data)
    { defaultParsedConfig with wardrive_mode := true }
    (by decide) rfl rfl (by decide) rfl

/-! ## Claim C9 — save candidate-path behaviour -/

/-- The gpsd write loop only ever writes gpsd candidate paths. -/
theorem gpsdWriteTrace_subset (env : FSEnv) (gs : List String) :
    ∀ q ∈ gpsdWriteTrace env gs, q ∈ gs := by
  induction gs with
  | nil => intro q hq; exact absurd hq (by simp [gpsdWriteTrace])
  | cons g rest ih =>
    intro q hq
    unfold gpsdWriteTrace at hq
    split at hq
    · exact List.mem_cons_of_mem g (ih q hq)
    · split at hq
      · simp at hq
        simp [hq]
      · rcases List.mem_cons.mp hq with rfl | hq'
        · simp
        · exact List.mem_cons_of_mem g (ih q hq')

/-- The candidate loop fails exactly when every candidate fails. -/
theorem savePathsGo_err (env : FSEnv) (ps : List String) :
    (savePathsGo env ps).1 = .err ↔ ∀ p ∈ ps, pathOk env p = false := by
  induction ps with
  | nil => simp [savePathsGo]
  | cons p rest ih =>
    unfold savePathsGo
    dsimp only
    by_cases hpre : (pyStartsWith p "/etc/" || pyStartsWith p "/usr/") = true
    · by_cases hex : env.pathExists (dirName p) = true
      · rw [if_neg (by simp [hpre, hex])]
        cases hw : env.writeOk p with
        | ok =>
          simp only []
          constructor
          · intro h; exact absurd h (by simp)
          · intro h
            have := h p (by simp)
            rw [pathOk, hpre, if_pos rfl, hex, hw] at this
            simp at this
        | permDenied =>
          simp only []
          rw [ih]
          constructor
          · intro h q hq
            rcases List.mem_cons.mp hq with rfl | hq'
            · rw [pathOk, hw]; simp
            · exact h q hq'
          · intro h q hq; exact h q (by simp [hq])
        | ioError =>
          simp only []
          rw [ih]
          constructor
          · intro h q hq
            rcases List.mem_cons.mp hq with rfl | hq'
            · rw [pathOk, hw]; simp
            · exact h q hq'
          · intro h q hq; exact h q (by simp [hq])
      · rw [Bool.not_eq_true] at hex
        rw [if_pos (by simp [hpre, hex])]
        rw [ih]
        constructor
        · intro h q hq
          rcases List.mem_cons.mp hq with rfl | hq'
          · rw [pathOk, hpre, if_pos rfl, hex]; simp
          · exact h q hq'
        · intro h q hq; exact h q (by simp [hq])
    · by_cases hmk : env.makedirsOk (dirName p) = true
      · rw [if_neg (by simp [hpre, hmk])]
        cases hw : env.writeOk p with
        | ok =>
          simp only []
          constructor
          · intro h; exact absurd h (by simp)
          · intro h
            have := h p (by simp)
            rw [pathOk, if_neg (by simp [hpre]), hmk, hw] at this
            simp at this
        | permDenied =>
          simp only []
          rw [ih]
          constructor
          · intro h q hq
            rcases List.mem_cons.mp hq with rfl | hq'
            · rw [pathOk, hw]; simp
            · exact h q hq'
          · intro h q hq; exact h q (by simp [hq])
        | ioError =>
          simp only []
          rw [ih]
          constructor
          · intro h q hq
            rcases List.mem_cons.mp hq with rfl | hq'
            · rw [pathOk, hw]; simp
            · exact h q hq'
          · intro h q hq; exact h q (by simp [hq])
      · rw [Bool.not_eq_true] at hmk
        rw [if_pos (by simp [hpre, hmk])]
        rw [ih]
        constructor
        · intro h q hq
          rcases List.mem_cons.mp hq with rfl | hq'
          · rw [pathOk, if_neg (by simp [hpre]), hmk]; simp
          · exact h q hq'
        · intro h q hq; exact h q (by simp [hq])

/-- The candidate loop returns the first writable candidate and never
attempts a write on any candidate after it. -/
theorem savePathsGo_first (env : FSEnv) :
    ∀ (ps₁ : List String) (p : String) (ps₂ : List String),
      pathOk env p = true →
      (∀ q ∈ ps₁, pathOk env q = false) →
      (savePathsGo env (ps₁ ++ p :: ps₂)).1 = .ok p ∧
      (∀ q, q ∉ ps₁ → q ≠ p → q ∉ gpsdPaths →
        q ∉ (savePathsGo env (ps₁ ++ p :: ps₂)).2) := by
  intro ps₁
  induction ps₁ with
  | nil =>
    intro p ps₂ hp _
    rw [pathOk, Bool.and_eq_true, decide_eq_true_eq] at hp
    obtain ⟨hp1, hp2⟩ := hp
    rw [List.nil_append]
    unfold savePathsGo
    dsimp only
    rw [if_neg (by
      by_cases hsys : (pyStartsWith p "/etc/" || pyStartsWith p "/usr/") = true
      · rw [if_pos hsys] at hp1
        rw [if_pos hsys]
        exact not_not_intro hp1
      · rw [if_neg hsys] at hp1
        rw [if_neg hsys]
        exact not_not_intro hp1)]
    rw [hp2]
    constructor
    · rfl
    · intro q _ hqp hqg hqmem
      rcases List.mem_cons.mp hqmem with rfl | hq'
      · exact hqp rfl
      · exact hqg (gpsdWriteTrace_subset env gpsdPaths q hq')
  | cons a as ih =>
    intro p ps₂ hp hps₁
    have ha : pathOk env a = false := hps₁ a (by simp)
    have hrest := ih p ps₂ hp (fun q hq => hps₁ q (by simp [hq]))
    rw [List.cons_append]
    unfold savePathsGo
    dsimp only
    by_cases hskip : (if (pyStartsWith a "/etc/" || pyStartsWith a "/usr/") = true then
        ¬ env.pathExists (dirName a) = true else ¬ env.makedirsOk (dirName a) = true)
    · rw [if_pos hskip]
      exact ⟨hrest.1, fun q hq1 hq2 hq3 => hrest.2 q (fun hm => hq1 (by simp [hm])) hq2 hq3⟩
    · rw [if_neg hskip]
      cases hw : env.writeOk a with
      | ok =>
        exfalso
        rw [pathOk, hw] at ha
        simp only [decide_True, Bool.and_true] at ha
        by_cases hsys : (pyStartsWith a "/etc/" || pyStartsWith a "/usr/") = true
        · rw [if_pos hsys] at ha
          rw [if_pos hsys] at hskip
          exact hskip (by simp [ha])
        · rw [if_neg hsys] at ha
          rw [if_neg hsys] at hskip
          exact hskip (by simp [ha])
      | permDenied =>
        simp only []
        refine ⟨hrest.1, ?_⟩
        intro q hq1 hq2 hq3 hqmem
        rcases List.mem_cons.mp hqmem with rfl | hq'
        · exact hq1 (by simp)
        · exact hrest.2 q (fun hm => hq1 (by simp [hm])) hq2 hq3 hq'
      | ioError =>
        simp only []
        refine ⟨hrest.1, ?_⟩
        intro q hq1 hq2 hq3 hqmem
        rcases List.mem_cons.mp hqmem with rfl | hq'
        · exact hq1 (by simp)
        · exact hrest.2 q (fun hm => hq1 (by simp [hm])) hq2 hq3 hq'

/-- Claim C9: `save_config` returns the aggregate failure iff every
candidate configuration path fails; when the first writable candidate is
`p`, it returns success with `p` and no candidate after `p` is ever passed
to a write attempt.  Each per-path outcome is an environment value, never an
exception: the function is total and only ever returns a result record. -/
theorem c9_save_config (env : FSEnv) (now : String) (cfg : ConfigData) :
    ((saveConfig env now cfg).1 = .err ↔ ∀ p ∈ configPaths, pathOk env p = false) ∧
    (∀ ps₁ p ps₂, configPaths = ps₁ ++ p :: ps₂ → pathOk env p = true →
      (∀ q ∈ ps₁, pathOk env q = false) →
      (saveConfig env now cfg).1 = .ok p ∧
      ∀ q ∈ ps₂, q ∉ (saveConfig env now cfg).2) := by
  have hsave : saveConfig env now cfg = savePathsGo env configPaths := rfl
  constructor
  · rw [hsave]
    exact savePathsGo_err env configPaths
  · intro ps₁ p ps₂ hsplit hp hps₁
    have hnd : configPaths.Nodup := by decide
    have hdisj : ∀ q ∈ configPaths, q ∉ gpsdPaths := by decide
    have h := savePathsGo_first env ps₁ p ps₂ hp hps₁
    rw [hsave, hsplit]
    refine ⟨h.1, ?_⟩
    intro q hq
    rw [hsplit] at hnd
    rw [List.nodup_append] at hnd
    have hq1 : q ∉ ps₁ := fun hmem => hnd.2.2 hmem (List.mem_cons_of_mem p hq)
    have hq2 : q ≠ p := by
      intro he
      subst he
      exact (List.nodup_cons.mp hnd.2.1).1 hq
    have hq3 : q ∉ gpsdPaths :=
      hdisj q (by rw [hsplit]; exact List.mem_append_right ps₁ (List.mem_cons_of_mem p hq))
    exact h.2 q hq1 hq2 hq3

/-- Claim C9 witness: with the system directory missing and the second
candidate writable, save succeeds at the second path and the third is not
attempted. -/
theorem c9_witness :
    (saveConfig
        { pathExists := fun _ => false, makedirsOk := fun _ => true
          writeOk := fun pth =>
            if pth = "/home/user/.kismet/kismet_site.conf" then .ok else .ioError
          copyOk := true }
        "Mon"
        { wardrive_mode := false, data_sources := [], gps_type := "disabled"
          gps_host := "localhost", gps_port := "2947", coord_format := "latlon"
          gps_mgrs := "", gps_alt_mgrs := "", gps_lat := "", gps_lon := ""
          gps_alt := "", gps_remote_host := "0.0.0.0", gps_remote_port := "4545"
          logging_config :=
            { log_types := ["kismet"], log_dir := "/home/user/kismet"
              log_title := "Kismet_Survey", pcapng_log_max_mb := 0
              pcapng_log_duplicate_packets := true, pcapng_log_data_packets := true }
          device_alerts :=
            { device_found_macs := [], device_lost_macs := []
              device_found_timeout := "", device_lost_timeout := "" } }).1 =
      .ok "/home/user/.kismet/kismet_site.conf" ∧
    "./kismet_site.conf" ∉
      (saveConfig
        { pathExists := fun _ => false, makedirsOk := fun _ => true
          writeOk := fun pth =>
            if pth = "/home/user/.kismet/kismet_site.conf" then .ok else .ioError
          copyOk := true }
        "Mon"
        { wardrive_mode := false, data_sources := [], gps_type := "disabled"
          gps_host := "localhost", gps_port := "2947", coord_format := "latlon"
          gps_mgrs := "", gps_alt_mgrs := "", gps_lat := "", gps_lon := ""
          gps_alt := "", gps_remote_host := "0.0.0.0", gps_remote_port := "4545"
          logging_config :=
            { log_types := ["kismet"], log_dir := "/home/user/kismet"
              log_title := "Kismet_Survey", pcapng_log_max_mb := 0
              pcapng_log_duplicate_packets := true, pcapng_log_data_packets := true }
          device_alerts :=
            { device_found_macs := [], device_lost_macs := []
              device_found_timeout := "", device_lost_timeout := "" } }).2 := by
  have h := (c9_save_config
    { pathExists := fun _ => false, makedirsOk := fun _ => true
      writeOk := fun pth =>
        if pth = "/home/user/.kismet/kismet_site.conf" then .ok else .ioError
      copyOk := true }
    "Mon"
    { wardrive_mode := false, data_sources := [], gps_type := "disabled"
      gps_host := "localhost", gps_port := "2947", coord_format := "latlon"
      gps_mgrs := "", gps_alt_mgrs := "", gps_lat := "", gps_lon := ""
      gps_alt := "", gps_remote_host := "0.0.0.0", gps_remote_port := "4545"
      logging_config :=
        { log_types := ["kismet"], log_dir := "/home/user/kismet"
          log_title := "Kismet_Survey", pcapng_log_max_mb := 0
          pcapng_log_duplicate_packets := true, pcapng_log_data_packets := true }
      device_alerts :=
        { device_found_macs := [], device_lost_macs := []
          device_found_timeout := "", device_lost_timeout := "" } }).2
    ["/etc/kismet/kismet_site.conf"] "/home/user/.kismet/kismet_site.conf"
    ["./kismet_site.conf"] rfl (by decide) (by decide)
  exact ⟨h.1, h.2 "./kismet_site.conf" (by simp)⟩

/-! ## Claim C2: the generate/parse round trip

The generator's option text for each source kind is modelled as a list of
`OptAtom`s; `parseSourceLine_mkLine` replays the tokenizer over such a line,
and per-key lookup lemmas evaluate the reparse field by field. -/

theorem mem_joinL {c : Char} {sep : List Char} {parts : List (List Char)}
    (h : c ∈ joinL sep parts) : c ∈ sep ∨ ∃ part ∈ parts, c ∈ part := by
  induction parts with
  | nil => exact absurd h (by simp [joinL])
  | cons x xs ih =>
    cases xs with
    | nil =>
      exact Or.inr ⟨x, by simp, h⟩
    | cons y ys =>
      rw [show joinL sep (x :: y :: ys) = x ++ sep ++ joinL sep (y :: ys) from rfl] at h
      rcases List.mem_append.mp h with h1 | h2
      · rcases List.mem_append.mp h1 with h3 | h4
        · exact Or.inr ⟨x, by simp, h3⟩
        · exact Or.inl h4
      · rcases ih h2 with h3 | ⟨p, hp, hcp⟩
        · exact Or.inl h3
        · exact Or.inr ⟨p, by simp [hp], hcp⟩

theorem joinL_ne_nil {sep : List Char} {parts : List (List Char)}
    (hne : parts ≠ []) (hhead : ∀ p ∈ parts, p ≠ []) :
    joinL sep parts ≠ [] := by
  cases parts with
  | nil => exact absurd rfl hne
  | cons x xs =>
    cases xs with
    | nil => exact hhead x (by simp)
    | cons y ys =>
      show x ++ sep ++ joinL sep (y :: ys) ≠ []
      have : x ≠ [] := hhead x (by simp)
      intro h
      rw [List.append_eq_nil, List.append_eq_nil] at h
      exact this h.1.1

theorem no_eq_pref : ∀ (l₁ nd l₂ : List Char),
    ':' ∉ nd → '=' ∈ nd → ':' ∉ l₁ → '=' ∉ l₁ →
    nd.isPrefixOf (l₁ ++ ':' :: l₂) = false := by
  intro l₁
  induction l₁ with
  | nil =>
    intro nd l₂ hc he _ _
    cases nd with
    | nil => simp at he
    | cons n ns =>
      have : n ≠ ':' := fun e => hc (by simp [e])
      simp [List.isPrefixOf, this]
  | cons a as ih =>
    intro nd l₂ hc he ha1 ha2
    cases nd with
    | nil => simp at he
    | cons n ns =>
      rw [List.cons_append]
      show (n == a && ns.isPrefixOf (as ++ ':' :: l₂)) = false
      by_cases hna : n = a
      · subst hna
        have hane : n ≠ '=' := fun e => ha2 (List.mem_cons.mpr (Or.inl e.symm))
        have hne' : '=' ∈ ns := by
          rcases List.mem_cons.mp he with h1 | h1
          · exact absurd h1.symm hane
          · exact h1
        have hcns : ':' ∉ ns := fun h => hc (by simp [h])
        rw [ih ns l₂ hcns hne' (fun h => ha1 (by simp [h])) (fun h => ha2 (by simp [h]))]
        simp
      · simp [hna]

theorem pref_mem {nd l : List Char} (h : nd.isPrefixOf l = true) :
    ∀ c ∈ nd, c ∈ l := by
  induction nd generalizing l with
  | nil =>
    intro c hc
    exact absurd hc (List.not_mem_nil c)
  | cons a as ih =>
    cases l with
    | nil => exact absurd h (by simp [List.isPrefixOf])
    | cons b bs =>
      simp only [List.isPrefixOf, Bool.and_eq_true, beq_iff_eq] at h
      intro c hc
      rcases List.mem_cons.mp hc with rfl | hc2
      · exact List.mem_cons.mpr (Or.inl h.1)
      · exact List.mem_cons.mpr (Or.inr (ih h.2 c hc2))

theorem no_eq_pref' (l : List Char) (h : '=' ∉ l) :
    "source=".data.isPrefixOf l = false := by
  cases hp : "source=".data.isPrefixOf l with
  | false => rfl
  | true => exact absurd (pref_mem hp '=' (by decide)) h

theorem chunk_clean {a : OptAtom} (h : a.WF) :
    ∀ c ∈ a.chunk, isPySpace c = false ∧ c ≠ ',' := by
  obtain ⟨hkey, _, hval⟩ := h
  intro c hc
  unfold OptAtom.chunk at hc
  rcases List.mem_append.mp hc with h1 | h2
  · exact ⟨(hkey c h1).1, (hkey c h1).2.1⟩
  · rcases List.mem_cons.mp h2 with rfl | h3
    · exact ⟨by decide, by decide⟩
    · by_cases hq : a.quoted
      · rw [if_pos hq] at h3
        rcases List.mem_cons.mp h3 with rfl | h4
        · exact ⟨by decide, by decide⟩
        · rcases List.mem_append.mp h4 with h5 | h6
          · exact ⟨(hval c h5).2.2.2, (hval c h5).1⟩
          · rcases List.mem_singleton.mp h6 with rfl
            exact ⟨by decide, by decide⟩
      · rw [if_neg hq] at h3
        exact ⟨(hval c h3).2.2.2, (hval c h3).1⟩

theorem optStep_chunk (a : OptAtom) (h : a.WF) (d : Dict) :
    optStep d a.chunk = dictSet d a.key (.s a.val) := by
  have hclean : ∀ c ∈ a.chunk, isPySpace c = false := fun c hc => (chunk_clean h c hc).1
  obtain ⟨hkey, _hkne, hval⟩ := h
  unfold optStep
  rw [pyStripL_clean hclean]
  rw [if_neg (by
    unfold OptAtom.chunk
    intro hx
    have := congrArg List.length hx
    simp at this)]
  have hkeq : '=' ∉ a.key.data := fun hm => (hkey '=' hm).2.2.1 rfl
  unfold OptAtom.chunk
  rw [splitFirstL_append _ hkeq]
  dsimp only
  have hkstrip : pyStripL a.key.data = a.key.data :=
    pyStripL_clean (fun c hc => (hkey c hc).1)
  by_cases hq : a.quoted
  · rw [if_pos hq]
    have hvq : '"' ∉ a.val.data := fun hm => (hval '"' hm).2.1 rfl
    have hvs : '\'' ∉ a.val.data := fun hm => (hval '\'' hm).2.2.1 rfl
    rw [show pyStripL ('"' :: (a.val.data ++ ['"'])) = '"' :: (a.val.data ++ ['"']) from
      pyStripL_clean (by
        intro c hc
        rcases List.mem_cons.mp hc with rfl | h2
        · decide
        · rcases List.mem_append.mp h2 with h3 | h4
          · exact (hval c h3).2.2.2
          · rcases List.mem_singleton.mp h4 with rfl
            decide)]
    rw [stripCharL_wrap hvq, stripCharL_not_mem hvs, hkstrip]
  · rw [if_neg hq]
    have hvq : '"' ∉ a.val.data := fun hm => (hval '"' hm).2.1 rfl
    have hvs : '\'' ∉ a.val.data := fun hm => (hval '\'' hm).2.2.1 rfl
    rw [show pyStripL a.val.data = a.val.data from
      pyStripL_clean (fun c hc => (hval c hc).2.2.2)]
    rw [stripCharL_not_mem hvq, stripCharL_not_mem hvs, hkstrip]

theorem parseOpts_join (atoms : List OptAtom) (hwf : ∀ a ∈ atoms, a.WF)
    (hne : atoms ≠ []) :
    parseOpts (joinL [','] (atoms.map OptAtom.chunk)) = dictOfAtoms atoms := by
  unfold parseOpts dictOfAtoms
  rw [splitAllL_join
    (by
      intro x hx hmem
      rcases List.mem_map.mp hx with ⟨a, ha, rfl⟩
      exact absurd rfl (chunk_clean (hwf a ha) ',' hmem).2)
    (by simpa using hne)]
  rw [List.foldl_map]
  suffices hgen : ∀ (init : Dict) (l : List OptAtom), (∀ a ∈ l, a.WF) →
      l.foldl (fun d a => optStep d a.chunk) init =
        l.foldl (fun d a => dictSet d a.key (.s a.val)) init by
    exact hgen [] atoms hwf
  intro init l
  induction l generalizing init with
  | nil => intro; rfl
  | cons a as ih =>
    intro hwl
    rw [List.foldl_cons, List.foldl_cons, optStep_chunk a (hwl a (by simp))]
    exact ih _ (fun x hx => hwl x (by simp [hx]))

theorem pyGet_dictSet (d : Dict) (k : String) (v : PVal) (k' : String) :
    pyGet (dictSet d k v) k' = if k = k' then some v else pyGet d k' := by
  induction d with
  | nil => by_cases h : k = k' <;> simp [dictSet, pyGet, List.find?, h]
  | cons kv rest ih =>
    obtain ⟨a, b⟩ := kv
    unfold dictSet
    by_cases hak : a = k
    · subst hak
      by_cases h : a = k' <;> simp [pyGet, List.find?, h]
    · rw [if_neg hak]
      by_cases h : a = k'
      · subst h
        rw [if_neg (fun e : k = a => hak e.symm)]
        simp [pyGet, List.find?]
      · rw [show pyGet ((a, b) :: dictSet rest k v) k' = pyGet (dictSet rest k v) k' from by
          simp [pyGet, List.find?, h]]
        rw [show pyGet ((a, b) :: rest) k' = pyGet rest k' from by
          simp [pyGet, List.find?, h]]
        exact ih

theorem pyGet_foldl_atoms (atoms : List OptAtom) :
    ∀ (init : Dict) (k : String),
      pyGet (atoms.foldl (fun d a => dictSet d a.key (.s a.val)) init) k =
        (match lookRA atoms k with
         | some v => some (.s v)
         | none => pyGet init k) := by
  induction atoms with
  | nil => intro init k; rfl
  | cons a as ih =>
    intro init k
    rw [List.foldl_cons, ih]
    rw [show lookRA (a :: as) k =
        (match lookRA as k with
         | some v => some v
         | none => if a.key = k then some a.val else none) from rfl]
    cases hr : lookRA as k with
    | some v => rfl
    | none =>
      dsimp only
      rw [pyGet_dictSet]
      by_cases hk : a.key = k
      · simp [hk]
      · simp [hk]

theorem pyGet_dictOfAtoms (atoms : List OptAtom) (k : String) :
    pyGet (dictOfAtoms atoms) k =
      (match lookRA atoms k with
       | some v => some (.s v)
       | none => none) := by
  unfold dictOfAtoms
  rw [pyGet_foldl_atoms]
  cases lookRA atoms k <;> rfl

theorem lookRA_append (l₁ l₂ : List OptAtom) (k : String) :
    lookRA (l₁ ++ l₂) k =
      (match lookRA l₂ k with
       | some v => some v
       | none => lookRA l₁ k) := by
  induction l₁ with
  | nil =>
    rw [List.nil_append]
    cases lookRA l₂ k <;> rfl
  | cons a as ih =>
    rw [List.cons_append]
    rw [show lookRA (a :: (as ++ l₂)) k =
        (match lookRA (as ++ l₂) k with
         | some v => some v
         | none => if a.key = k then some a.val else none) from rfl]
    rw [show lookRA (a :: as) k =
        (match lookRA as k with
         | some v => some v
         | none => if a.key = k then some a.val else none) from rfl]
    rw [ih]
    cases lookRA l₂ k with
    | some v => rfl
    | none => cases lookRA as k <;> rfl

theorem lookRA_nil (k : String) : lookRA [] k = none := rfl

theorem lookRA_singleton (a : OptAtom) (k : String) :
    lookRA [a] k = if a.key = k then some a.val else none := rfl

theorem parseSourceLine_mkLine (pfx : String) (atoms : List OptAtom)
    (hclean : CleanVal pfx)
    (hcolon : ':' ∉ pfx.data) (heq : '=' ∉ pfx.data)
    (hwf : ∀ a ∈ atoms, a.WF) (hane : atoms ≠ []) :
    parseSourceLine (mkLine pfx atoms) = parseCore pfx (dictOfAtoms atoms) := by
  have hdata : (mkLine pfx atoms).data =
      pfx.data ++ ':' :: joinL [','] (atoms.map OptAtom.chunk) := by
    unfold mkLine
    rw [String.data_append, String.data_append, joinStr_data]
    rw [List.map_map, List.append_assoc]
    rfl
  have hjoin_clean : ∀ c ∈ joinL [','] (atoms.map OptAtom.chunk), isPySpace c = false := by
    intro c hc
    rcases mem_joinL hc with h1 | ⟨part, hp, hcp⟩
    · rcases List.mem_singleton.mp h1 with rfl
      decide
    · rcases List.mem_map.mp hp with ⟨a, ha, rfl⟩
      exact (chunk_clean (hwf a ha) c hcp).1
  have hstrip : pyStripL (mkLine pfx atoms).data = (mkLine pfx atoms).data := by
    apply pyStripL_clean
    rw [hdata]
    intro c hc
    rcases List.mem_append.mp hc with h1 | h2
    · exact (hclean c h1).2.2.2
    · rcases List.mem_cons.mp h2 with rfl | h3
      · decide
      · exact hjoin_clean c h3
  unfold parseSourceLine lineParts
  rw [hstrip, hdata]
  rw [if_neg (by
    intro hx
    have := congrArg List.length hx
    simp at this)]
  rw [no_eq_pref pfx.data "source=".data _ (by decide) (by decide) hcolon heq]
  simp only [Bool.false_eq_true, if_false]
  rw [splitFirstL_append _ hcolon]
  dsimp only
  have hjne : joinL [','] (atoms.map OptAtom.chunk) ≠ [] := by
    apply joinL_ne_nil (by simpa using hane)
    intro p hp
    rcases List.mem_map.mp hp with ⟨a, _, rfl⟩
    unfold OptAtom.chunk
    intro hx
    have := congrArg List.length hx
    simp at this
  rw [if_pos hjne, parseOpts_join atoms hwf hane]
  show parseCore (String.mk pfx.data) (dictOfAtoms atoms) = parseCore pfx (dictOfAtoms atoms)
  rfl

theorem parseSourceLine_plain (pfx : String)
    (hclean : CleanVal pfx) (hne : pfx ≠ "")
    (hcolon : ':' ∉ pfx.data) (heq : '=' ∉ pfx.data) :
    parseSourceLine pfx = parseCore pfx [] := by
  have hstrip : pyStripL pfx.data = pfx.data :=
    pyStripL_clean (fun c hc => (hclean c hc).2.2.2)
  unfold parseSourceLine lineParts
  rw [hstrip]
  rw [if_neg (by
    intro hx
    exact hne (by cases pfx; simp at hx; simp [hx]))]
  rw [no_eq_pref' pfx.data heq]
  simp only [Bool.false_eq_true, if_false]
  rw [splitFirstL_not_mem hcolon]
  dsimp only
  rw [if_neg (by simp)]
  show parseCore (String.mk pfx.data) [] = parseCore pfx []
  rfl

theorem mkchunk_plain (k v : String) :
    String.mk (OptAtom.chunk ⟨k, v, false⟩) = k ++ "=" ++ v := by
  apply strExt
  show k.data ++ '=' :: v.data = (k ++ "=" ++ v).data
  rw [String.data_append, String.data_append, List.append_assoc]
  rfl

theorem mkchunk_quoted (k v : String) :
    String.mk (OptAtom.chunk ⟨k, v, true⟩) = k ++ "=\"" ++ v ++ "\"" := by
  apply strExt
  show k.data ++ '=' :: '"' :: (v.data ++ ['"']) = (k ++ "=\"" ++ v ++ "\"").data
  rw [String.data_append, String.data_append, String.data_append,
    List.append_assoc, List.append_assoc]
  rfl


theorem wifiGet_type (w : WiFiSpec) : pyGet w.toDict "type" = some (.s "wifi") := rfl
theorem wifiGet_name (w : WiFiSpec) : pyGet w.toDict "name" = some (.s w.name) := rfl
theorem wifiGet_interface (w : WiFiSpec) : pyGet w.toDict "interface" = some (.s w.interface) := rfl
theorem wifiGet_device (w : WiFiSpec) : pyGet w.toDict "device" = none := rfl
theorem wifiGet_channel (w : WiFiSpec) : pyGet w.toDict "channel" = some (.s w.channel) := rfl
theorem wifiGet_channels (w : WiFiSpec) : pyGet w.toDict "channels" = some (.s w.channels) := rfl
theorem wifiGet_hop (w : WiFiSpec) : pyGet w.toDict "channel_hop" = some (.b w.channel_hop) := rfl
theorem wifiGet_rate (w : WiFiSpec) : pyGet w.toDict "channel_hop_rate" = some (.s w.channel_hop_rate) := rfl
theorem wifiGet_ht (w : WiFiSpec) : pyGet w.toDict "ht_channels" = some (.b w.ht_channels) := rfl
theorem wifiGet_vht (w : WiFiSpec) : pyGet w.toDict "vht_channels" = some (.b w.vht_channels) := rfl
theorem wifiGet_b24 (w : WiFiSpec) : pyGet w.toDict "band24ghz" = some (.b w.band24ghz) := rfl
theorem wifiGet_b5 (w : WiFiSpec) : pyGet w.toDict "band5ghz" = some (.b w.band5ghz) := rfl
theorem wifiGet_b6 (w : WiFiSpec) : pyGet w.toDict "band6ghz" = some (.b w.band6ghz) := rfl

theorem btGet_type (b : BTSpec) : pyGet b.toDict "type" = some (.s "bluetooth") := rfl
theorem btGet_name (b : BTSpec) : pyGet b.toDict "name" = some (.s b.name) := rfl
theorem btGet_interface (b : BTSpec) : pyGet b.toDict "interface" = some (.s b.interface) := rfl

theorem sdrDict_cases (r : SDRSpec) (k : String) (o : Option PVal)
    (h : ∀ t1 t2 : List (String × PVal),
      (t1 = if r.gain = "" then [] else [("gain", PVal.s r.gain)]) →
      (t2 = if r.ppm_error = "" then [] else [("ppm_error", PVal.s r.ppm_error)]) →
      pyGet ([("type", PVal.s "rtl433"), ("name", PVal.s r.name),
        ("device", PVal.s r.device), ("frequency", PVal.s r.frequency)] ++ t1 ++ t2) k = o) :
    pyGet r.toDict k = o := by
  unfold SDRSpec.toDict
  exact h _ _ rfl rfl

theorem sdrGet_type (r : SDRSpec) : pyGet r.toDict "type" = some (.s "rtl433") := by
  unfold SDRSpec.toDict
  by_cases h1 : r.gain = ""
  · rw [if_pos h1]
    by_cases h2 : r.ppm_error = ""
    · rw [if_pos h2]; rfl
    · rw [if_neg h2]; rfl
  · rw [if_neg h1]
    by_cases h2 : r.ppm_error = ""
    · rw [if_pos h2]; rfl
    · rw [if_neg h2]; rfl

theorem sdrGet_name (r : SDRSpec) : pyGet r.toDict "name" = some (.s r.name) := by
  unfold SDRSpec.toDict
  by_cases h1 : r.gain = ""
  · rw [if_pos h1]
    by_cases h2 : r.ppm_error = ""
    · rw [if_pos h2]; rfl
    · rw [if_neg h2]; rfl
  · rw [if_neg h1]
    by_cases h2 : r.ppm_error = ""
    · rw [if_pos h2]; rfl
    · rw [if_neg h2]; rfl

theorem sdrGet_device (r : SDRSpec) : pyGet r.toDict "device" = some (.s r.device) := by
  unfold SDRSpec.toDict
  by_cases h1 : r.gain = ""
  · rw [if_pos h1]
    by_cases h2 : r.ppm_error = ""
    · rw [if_pos h2]; rfl
    · rw [if_neg h2]; rfl
  · rw [if_neg h1]
    by_cases h2 : r.ppm_error = ""
    · rw [if_pos h2]; rfl
    · rw [if_neg h2]; rfl

theorem sdrGet_frequency (r : SDRSpec) : pyGet r.toDict "frequency" = some (.s r.frequency) := by
  unfold SDRSpec.toDict
  by_cases h1 : r.gain = ""
  · rw [if_pos h1]
    by_cases h2 : r.ppm_error = ""
    · rw [if_pos h2]; rfl
    · rw [if_neg h2]; rfl
  · rw [if_neg h1]
    by_cases h2 : r.ppm_error = ""
    · rw [if_pos h2]; rfl
    · rw [if_neg h2]; rfl

theorem sdrGet_gain (r : SDRSpec) :
    pyGet r.toDict "gain" = (if r.gain = "" then none else some (.s r.gain)) := by
  unfold SDRSpec.toDict
  by_cases h1 : r.gain = ""
  · rw [if_pos h1, if_pos h1]
    by_cases h2 : r.ppm_error = ""
    · rw [if_pos h2]; rfl
    · rw [if_neg h2]; rfl
  · rw [if_neg h1, if_neg h1]
    by_cases h2 : r.ppm_error = ""
    · rw [if_pos h2]; rfl
    · rw [if_neg h2]; rfl

theorem sdrGet_ppm (r : SDRSpec) :
    pyGet r.toDict "ppm_error" = (if r.ppm_error = "" then none else some (.s r.ppm_error)) := by
  unfold SDRSpec.toDict
  by_cases h1 : r.gain = ""
  · rw [if_pos h1]
    by_cases h2 : r.ppm_error = ""
    · rw [if_pos h2, if_pos h2]; rfl
    · rw [if_neg h2, if_neg h2]; rfl
  · rw [if_neg h1]
    by_cases h2 : r.ppm_error = ""
    · rw [if_pos h2, if_pos h2]; rfl
    · rw [if_neg h2, if_neg h2]; rfl
theorem pvEq_wifi_rtl : pvEq (.s "wifi") (.s "rtl433") = false := rfl
theorem pvEq_wifi_bt : pvEq (.s "wifi") (.s "bluetooth") = false := rfl
theorem pvTruthy_s (v : String) : pvTruthy (.s v) = decide (v ≠ "") := rfl
theorem pvTruthy_b (b : Bool) : pvTruthy (.b b) = b := rfl

theorem mkchunk_name (v : String) :
    String.mk (OptAtom.chunk ⟨"name", v, false⟩) = "name=" ++ v := by
  apply strExt
  show "name".data ++ '=' :: v.data = ("name=" ++ v).data
  rw [String.data_append]
  rfl

theorem mkchunk_hoprate (v : String) :
    String.mk (OptAtom.chunk ⟨"channel_hoprate", v, false⟩) = "channel_hoprate=" ++ v := by
  apply strExt
  show "channel_hoprate".data ++ '=' :: v.data = ("channel_hoprate=" ++ v).data
  rw [String.data_append]
  rfl

theorem mkchunk_channel (v : String) :
    String.mk (OptAtom.chunk ⟨"channel", v, false⟩) = "channel=" ++ v := by
  apply strExt
  show "channel".data ++ '=' :: v.data = ("channel=" ++ v).data
  rw [String.data_append]
  rfl

theorem mkchunk_channels (v : String) :
    String.mk (OptAtom.chunk ⟨"channels", v, true⟩) = "channels=\"" ++ v ++ "\"" := by
  apply strExt
  show "channels".data ++ '=' :: '"' :: (v.data ++ ['"']) = ("channels=\"" ++ v ++ "\"").data
  rw [String.data_append, String.data_append]
  show _ = ("channels=\"".data ++ v.data) ++ "\"".data
  rw [List.append_assoc]
  rfl

theorem mkchunk_device (v : String) :
    String.mk (OptAtom.chunk ⟨"device", v, false⟩) = "device=" ++ v := by
  apply strExt
  show "device".data ++ '=' :: v.data = ("device=" ++ v).data
  rw [String.data_append]
  rfl

theorem mkchunk_gain (v : String) :
    String.mk (OptAtom.chunk ⟨"gain", v, false⟩) = "gain=" ++ v := by
  apply strExt
  show "gain".data ++ '=' :: v.data = ("gain=" ++ v).data
  rw [String.data_append]
  rfl

theorem mkchunk_ppm (v : String) :
    String.mk (OptAtom.chunk ⟨"ppm_error", v, false⟩) = "ppm_error=" ++ v := by
  apply strExt
  show "ppm_error".data ++ '=' :: v.data = ("ppm_error=" ++ v).data
  rw [String.data_append]
  rfl

theorem mkchunk_hopfalse :
    String.mk (OptAtom.chunk ⟨"channel_hop", "false", false⟩) = "channel_hop=false" := rfl
theorem mkchunk_b24 :
    String.mk (OptAtom.chunk ⟨"band24ghz", "true", false⟩) = "band24ghz=true" := rfl
theorem mkchunk_b5 :
    String.mk (OptAtom.chunk ⟨"band5ghz", "true", false⟩) = "band5ghz=true" := rfl
theorem mkchunk_b6 :
    String.mk (OptAtom.chunk ⟨"band6ghz", "true", false⟩) = "band6ghz=true" := rfl
theorem mkchunk_ht :
    String.mk (OptAtom.chunk ⟨"ht_channels", "false", false⟩) = "ht_channels=false" := rfl
theorem mkchunk_vht :
    String.mk (OptAtom.chunk ⟨"vht_channels", "false", false⟩) = "vht_channels=false" := rfl
theorem mkchunk_rtl :
    String.mk (OptAtom.chunk ⟨"type", "rtl433", false⟩) = "type=rtl433" := rfl

theorem generate_wifi (w : WiFiSpec) (hiface : w.interface ≠ "") (hb24 : w.band24ghz = true) :
    generateSourceLine (SourceSpec.toDict (.wifi w)) =
      some (mkLine w.interface (wifiAtoms w)) := by
  unfold generateSourceLine mkLine wifiAtoms
  rw [show SourceSpec.toDict (.wifi w) = w.toDict from rfl]
  simp only [wifiGet_type, wifiGet_name, wifiGet_interface, wifiGet_device, wifiGet_channel,
    wifiGet_channels, wifiGet_hop, wifiGet_rate, wifiGet_ht, wifiGet_vht, wifiGet_b24,
    wifiGet_b5, wifiGet_b6, Option.getD_some, pvEq_wifi_rtl, pvEq_wifi_bt,
    Bool.false_eq_true, if_false, pvTruthy_s, pvTruthy_b, pvStr, hb24,
    List.map_append, apply_ite (List.map (fun a : OptAtom => String.mk a.chunk)),
    List.map_cons, List.map_nil, mkchunk_name, mkchunk_hoprate, mkchunk_channel,
    mkchunk_channels, mkchunk_hopfalse, mkchunk_b24, mkchunk_b5, mkchunk_b6,
    mkchunk_ht, mkchunk_vht, decide_not, hiface, decide_True, Bool.not_false,
    Bool.not_true, if_true]
  rw [if_neg (by simp)]
  rw [if_pos (by simp [List.append_eq_nil])]

theorem lookRA_none_of (atoms : List OptAtom) (k : String)
    (h : ∀ a ∈ atoms, a.key ≠ k) : lookRA atoms k = none := by
  induction atoms with
  | nil => rfl
  | cons a as ih =>
    rw [show lookRA (a :: as) k =
        (match lookRA as k with
         | some v => some v
         | none => if a.key = k then some a.val else none) from rfl]
    rw [ih (fun x hx => h x (by simp [hx]))]
    rw [if_neg (h a (by simp))]

theorem startsWith_false_of_contains {nd hay : String}
    (h : containsSub nd hay = false) : pyStartsWith hay nd = false := by
  unfold containsSub at h
  unfold pyStartsWith
  cases hd : hay.data with
  | nil =>
    rw [hd] at h
    cases hnd : nd.data with
    | nil => rw [hnd] at h; simp [containsSubAux, List.isEmpty] at h
    | cons c cs => simp [List.isPrefixOf]
  | cons c cs =>
    rw [hd] at h
    unfold containsSubAux at h
    rw [Bool.or_eq_false_iff] at h
    exact h.1

theorem lookRA_cons (a : OptAtom) (as : List OptAtom) (k : String) :
    lookRA (a :: as) k =
      (match lookRA as k with
       | some v => some v
       | none => if a.key = k then some a.val else none) := rfl

example (w : WiFiSpec) : lookRA (wifiAtoms w) "name" =
    (if pvNe (.s w.name) (.s w.interface) = true then some w.name else none) := by
  unfold wifiAtoms
  simp [lookRA_append, apply_ite (fun l => lookRA l "name"), lookRA_singleton, lookRA_nil,
    lookRA_cons]

theorem lowerStr_empty : lowerStr "" = "" := rfl

theorem name_ite (n i : String) :
    (if pvNe (.s n) (.s i) = true then PVal.s n else PVal.s i) = PVal.s n := by
  by_cases h : n = i
  · subst h
    split <;> rfl
  · rw [if_pos (by simp [pvNe, pvEq, h])]

theorem omatch_id (o : Option String) :
    (match o with | some v => some v | none => none) = o := by
  cases o <;> rfl

theorem lookW_type (w : WiFiSpec) : lookRA (wifiAtoms w) "type" = none := by
  unfold wifiAtoms
  simp [omatch_id, lookRA_append, apply_ite (fun l => lookRA l "type"), lookRA_singleton, lookRA_nil,
    lookRA_cons]

theorem lookW_name (w : WiFiSpec) : lookRA (wifiAtoms w) "name" =
    (if pvNe (.s w.name) (.s w.interface) = true then some w.name else none) := by
  unfold wifiAtoms
  simp [omatch_id, lookRA_append, apply_ite (fun l => lookRA l "name"), lookRA_singleton, lookRA_nil,
    lookRA_cons]

theorem lookW_channel (w : WiFiSpec) : lookRA (wifiAtoms w) "channel" =
    (if pvTruthy (.s w.channel) = true then some w.channel else none) := by
  unfold wifiAtoms
  simp [omatch_id, lookRA_append, apply_ite (fun l => lookRA l "channel"), lookRA_singleton, lookRA_nil,
    lookRA_cons]

theorem lookW_channels (w : WiFiSpec) : lookRA (wifiAtoms w) "channels" =
    (if pvTruthy (.s w.channels) = true then some w.channels else none) := by
  unfold wifiAtoms
  simp [omatch_id, lookRA_append, apply_ite (fun l => lookRA l "channels"), lookRA_singleton, lookRA_nil,
    lookRA_cons]

theorem lookW_hop (w : WiFiSpec) (h : w.channel = "" ∨ w.channel_hop = false) :
    lookRA (wifiAtoms w) "channel_hop" =
      (if w.channel_hop then none else some "false") := by
  unfold wifiAtoms
  rcases h with h | h
  · cases hh : w.channel_hop <;>
      simp [h, hh, pvTruthy, omatch_id, lookRA_append,
        apply_ite (fun l => lookRA l "channel_hop"),
        lookRA_singleton, lookRA_nil, lookRA_cons]
  · simp [h, pvTruthy, omatch_id, lookRA_append,
      apply_ite (fun l => lookRA l "channel_hop"),
      lookRA_singleton, lookRA_nil, lookRA_cons]

theorem lookW_hop_rate (w : WiFiSpec) :
    lookRA (wifiAtoms w) "channel_hop_rate" = none := by
  unfold wifiAtoms
  simp [omatch_id, lookRA_append, apply_ite (fun l => lookRA l "channel_hop_rate"), lookRA_singleton,
    lookRA_nil, lookRA_cons]

theorem lookW_hoprate_t5 (w : WiFiSpec) (h : w.channel_hop = true)
    (h5 : w.channel_hop_rate = "5/sec") :
    lookRA (wifiAtoms w) "channel_hoprate" = none := by
  unfold wifiAtoms
  simp [h, h5, pvTruthy, pvNe, pvEq, omatch_id, lookRA_append,
    apply_ite (fun l => lookRA l "channel_hoprate"),
    lookRA_singleton, lookRA_nil, lookRA_cons]

theorem lookW_hoprate_tn (w : WiFiSpec) (h : w.channel_hop = true)
    (h5 : w.channel_hop_rate ≠ "5/sec") (hne : w.channel_hop_rate ≠ "") :
    lookRA (wifiAtoms w) "channel_hoprate" = some w.channel_hop_rate := by
  unfold wifiAtoms
  simp [h, h5, hne, pvTruthy, pvNe, pvEq, omatch_id, lookRA_append,
    apply_ite (fun l => lookRA l "channel_hoprate"),
    lookRA_singleton, lookRA_nil, lookRA_cons]

theorem lookW_hoprate_f (w : WiFiSpec) (h : w.channel_hop = false) :
    lookRA (wifiAtoms w) "channel_hoprate" = none := by
  unfold wifiAtoms
  simp [h, pvTruthy, omatch_id, lookRA_append,
    apply_ite (fun l => lookRA l "channel_hoprate"),
    lookRA_singleton, lookRA_nil, lookRA_cons]

theorem lookW_ht (w : WiFiSpec) : lookRA (wifiAtoms w) "ht_channels" =
    (if w.ht_channels then none else some "false") := by
  unfold wifiAtoms
  cases hh : w.ht_channels <;>
    simp [hh, pvTruthy, omatch_id, lookRA_append, apply_ite (fun l => lookRA l "ht_channels"),
      lookRA_singleton, lookRA_nil, lookRA_cons]

theorem lookW_vht (w : WiFiSpec) : lookRA (wifiAtoms w) "vht_channels" =
    (if w.vht_channels then none else some "false") := by
  unfold wifiAtoms
  cases hh : w.vht_channels <;>
    simp [hh, pvTruthy, omatch_id, lookRA_append, apply_ite (fun l => lookRA l "vht_channels"),
      lookRA_singleton, lookRA_nil, lookRA_cons]

theorem lookW_b24 (w : WiFiSpec) : lookRA (wifiAtoms w) "band24ghz" =
    (if w.band24ghz then some "true" else none) := by
  unfold wifiAtoms
  cases hh : w.band24ghz <;>
    simp [hh, pvTruthy, omatch_id, lookRA_append, apply_ite (fun l => lookRA l "band24ghz"),
      lookRA_singleton, lookRA_nil, lookRA_cons]

theorem lookW_b5 (w : WiFiSpec) : lookRA (wifiAtoms w) "band5ghz" =
    (if w.band5ghz then some "true" else none) := by
  unfold wifiAtoms
  cases hh : w.band5ghz <;>
    simp [hh, pvTruthy, omatch_id, lookRA_append, apply_ite (fun l => lookRA l "band5ghz"),
      lookRA_singleton, lookRA_nil, lookRA_cons]

theorem lookW_b6 (w : WiFiSpec) : lookRA (wifiAtoms w) "band6ghz" =
    (if w.band6ghz then some "true" else none) := by
  unfold wifiAtoms
  cases hh : w.band6ghz <;>
    simp [hh, pvTruthy, omatch_id, lookRA_append, apply_ite (fun l => lookRA l "band6ghz"),
      lookRA_singleton, lookRA_nil, lookRA_cons]

theorem sfield_ite (c : Prop) [inst : Decidable c] (v d : String) :
    (match (if c then some v else none) with
     | some x => some (PVal.s x)
     | none => none).getD (PVal.s d) = (if c then PVal.s v else PVal.s d) := by
  by_cases h : c <;> simp [h]

theorem truthy_ite (c : String) :
    (if pvTruthy (PVal.s c) = true then PVal.s c else PVal.s "") = PVal.s c := by
  by_cases h : c = "" <;> simp [pvTruthy, h]

theorem bool_ite_false (b : Bool) :
    (match (match (if b = true then none else (some "false" : Option String)) with
       | some v => some (PVal.s v)
       | none => none).getD (PVal.b true) with
     | PVal.s v => ["1", "true", "yes", "on"].contains (lowerStr v)
     | PVal.b x => x) = b := by
  cases b <;> rfl

theorem bool_ite_true (b : Bool) :
    (match (match (if b = true then (some "true" : Option String) else none) with
       | some v => some (PVal.s v)
       | none => none).getD (PVal.b false) with
     | PVal.s v => ["1", "true", "yes", "on"].contains (lowerStr v)
     | PVal.b x => x) = b := by
  cases b <;> rfl

theorem strip2_clean {v : String} (h : CleanVal v) :
    stripCharL '\'' (stripCharL '"' v.data) = v.data := by
  rw [stripCharL_not_mem (fun hm => ((h _ hm).2.1 rfl).elim)]
  rw [stripCharL_not_mem (fun hm => ((h _ hm).2.2.1 rfl).elim)]

theorem wifi_parse (w : WiFiSpec) (hv : w.Valid) :
    parseCore w.interface (dictOfAtoms (wifiAtoms w)) = some (SourceSpec.toDict (.wifi w)) := by
  obtain ⟨hid, hne, hhci, hbt, hrtl, hnm, hchv, hchsv, hratev, hhopch, hrc, hb24, hb5⟩ := hv
  have hsw := startsWith_false_of_contains hrtl
  have htype : typeLowerOf (dictOfAtoms (wifiAtoms w)) = some "" := by
    unfold typeLowerOf
    rw [pyGet_dictOfAtoms, lookW_type]
    rfl
  unfold parseCore
  simp only [hhci, hbt, hsw, hrtl, Bool.or_self, Bool.false_eq_true, if_false, htype,
    Option.map_some]
  show wifiSrc w.interface (dictOfAtoms (wifiAtoms w)) = some (SourceSpec.wifi w).toDict
  unfold wifiSrc
  simp only [pyGet_dictOfAtoms, parseBoolOpt, lookW_name, lookW_channel, lookW_channels,
    lookW_hop w hhopch, lookW_hop_rate, lookW_ht, lookW_vht, lookW_b24, lookW_b5, lookW_b6,
    hb24, hb5, if_true]
  simp only [sfield_ite, truthy_ite, bool_ite_false, bool_ite_true, name_ite, Option.getD_none]
  rw [strip2_clean hchsv]
  have hrate : (match lookRA (wifiAtoms w) "channel_hoprate" with
      | some v => some (PVal.s v)
      | none => none).getD (PVal.s "5/sec") = PVal.s w.channel_hop_rate := by
    by_cases hhop : w.channel_hop = true
    · by_cases hr5 : w.channel_hop_rate = "5/sec"
      · rw [lookW_hoprate_t5 w hhop hr5, hr5]
        rfl
      · have hne2 : w.channel_hop_rate ≠ "" := by
          rcases hrc with h | ⟨_, h⟩
          · exact absurd h hr5
          · exact h
        rw [lookW_hoprate_tn w hhop hr5 hne2]
        rfl
    · have hf : w.channel_hop = false := by
        cases hcc : w.channel_hop
        · rfl
        · exact absurd hcc hhop
      have hr5 : w.channel_hop_rate = "5/sec" := by
        rcases hrc with h | ⟨h, _⟩
        · exact h
        · exact absurd h hhop
      rw [lookW_hoprate_f w hf, hr5]
      rfl
  rw [hrate]
  simp [SourceSpec.toDict, WiFiSpec.toDict, hb24, hb5]
  exact Or.inr (Or.inl rfl)

theorem mem_ite_nil {c : Prop} [inst : Decidable c] {l : List OptAtom} {a : OptAtom}
    (h : a ∈ (if c then l else [])) : a ∈ l := by
  split at h
  · exact h
  · exact absurd h (List.not_mem_nil a)

theorem wf_mk (k v : String) (q : Bool)
    (hk : ∀ c ∈ k.data,
      isPySpace c = false ∧ c ≠ ',' ∧ c ≠ '=' ∧ c ≠ '"' ∧ c ≠ '\'')
    (hkne : k ≠ "") (hv : CleanVal v) : OptAtom.WF ⟨k, v, q⟩ := ⟨hk, hkne, hv⟩

theorem wifiAtoms_wf (w : WiFiSpec) (hnm : CleanVal w.name) (hchv : CleanVal w.channel)
    (hchsv : CleanVal w.channels) (hratev : CleanVal w.channel_hop_rate) :
    ∀ a ∈ wifiAtoms w, a.WF := by
  intro a ha
  unfold wifiAtoms at ha
  simp only [List.mem_append] at ha
  rcases ha with ((((((((h | h) | h) | h) | h) | h) | h) | h) | h)
  · have h2 := mem_ite_nil h
    simp only [List.mem_singleton] at h2
    subst h2
    exact wf_mk _ _ _ (by decide) (by decide) hnm
  · split at h
    · simp only [List.mem_singleton] at h
      subst h
      exact wf_mk _ _ _ (by decide) (by decide) (by decide)
    · split at h
      · simp only [List.mem_singleton] at h
        subst h
        exact wf_mk _ _ _ (by decide) (by decide) hratev
      · exact absurd h (List.not_mem_nil a)
  · split at h
    · rcases List.mem_append.mp h with h2 | h2
      · simp only [List.mem_singleton] at h2
        subst h2
        exact wf_mk _ _ _ (by decide) (by decide) hchv
      · have h3 := mem_ite_nil h2
        simp only [List.mem_singleton] at h3
        subst h3
        exact wf_mk _ _ _ (by decide) (by decide) (by decide)
    · exact absurd h (List.not_mem_nil a)
  · have h2 := mem_ite_nil h
    simp only [List.mem_singleton] at h2
    subst h2
    exact wf_mk _ _ _ (by decide) (by decide) hchsv
  · have h2 := mem_ite_nil h
    simp only [List.mem_singleton] at h2
    subst h2
    exact wf_mk _ _ _ (by decide) (by decide) (by decide)
  · have h2 := mem_ite_nil h
    simp only [List.mem_singleton] at h2
    subst h2
    exact wf_mk _ _ _ (by decide) (by decide) (by decide)
  · have h2 := mem_ite_nil h
    simp only [List.mem_singleton] at h2
    subst h2
    exact wf_mk _ _ _ (by decide) (by decide) (by decide)
  · have h2 := mem_ite_nil h
    simp only [List.mem_singleton] at h2
    subst h2
    exact wf_mk _ _ _ (by decide) (by decide) (by decide)
  · have h2 := mem_ite_nil h
    simp only [List.mem_singleton] at h2
    subst h2
    exact wf_mk _ _ _ (by decide) (by decide) (by decide)

theorem wifiAtoms_ne (w : WiFiSpec) (hb24 : w.band24ghz = true) : wifiAtoms w ≠ [] := by
  intro h
  have hm : (⟨"band24ghz", "true", false⟩ : OptAtom) ∈ wifiAtoms w := by
    unfold wifiAtoms
    simp only [List.mem_append]
    refine Or.inl (Or.inl (Or.inl (Or.inl (Or.inr ?_))))
    simp [hb24, pvTruthy]
  rw [h] at hm
  exact absurd hm (List.not_mem_nil _)

theorem wifi_roundtrip (w : WiFiSpec) (hv : w.Valid) :
    (generateSourceLine (SourceSpec.toDict (.wifi w))).bind parseSourceLine =
      some (SourceSpec.toDict (.wifi w)) := by
  obtain ⟨hid, hne, hhci, hbt, hrtl, hnm, hchv, hchsv, hratev, hhopch, hrc, hb24, hb5⟩ := hv
  rw [generate_wifi w hne hb24]
  rw [Option.some_bind]
  rw [parseSourceLine_mkLine w.interface (wifiAtoms w) hid.1 hid.2.1 hid.2.2
    (wifiAtoms_wf w hnm hchv hchsv hratev) (wifiAtoms_ne w hb24)]
  exact wifi_parse w ⟨hid, hne, hhci, hbt, hrtl, hnm, hchv, hchsv, hratev, hhopch, hrc, hb24, hb5⟩

theorem isPrefixOf_map_toLower (p l : List Char)
    (hp : ∀ c ∈ p, c.toLower = c)
    (h : p.isPrefixOf l = true) : p.isPrefixOf (l.map Char.toLower) = true := by
  induction p generalizing l with
  | nil => simp [List.isPrefixOf]
  | cons a as ih =>
    cases l with
    | nil => exact absurd h (by simp [List.isPrefixOf])
    | cons b bs =>
      simp only [List.isPrefixOf, List.map_cons, Bool.and_eq_true, beq_iff_eq] at h ⊢
      obtain ⟨hab, htail⟩ := h
      refine ⟨?_, ih bs (fun c hc => hp c (List.mem_cons.mpr (Or.inr hc))) htail⟩
      rw [← hab]
      exact (hp a (List.mem_cons.mpr (Or.inl rfl))).symm

theorem lowerStr_hci {s : String} (h : pyStartsWith s "hci" = true) :
    pyStartsWith (lowerStr s) "hci" = true := by
  have := isPrefixOf_map_toLower "hci".data s.data (by decide) h
  exact this

theorem generate_bt_hci_eq (b : BTSpec) (hne : b.interface ≠ "")
    (hst : pyStartsWith b.interface "hci" = true) (hn : b.name = b.interface) :
    generateSourceLine (SourceSpec.toDict (.bt b)) = some b.interface := by
  unfold generateSourceLine
  rw [show SourceSpec.toDict (.bt b) = b.toDict from rfl]
  simp only [btGet_type, btGet_name, btGet_interface, Option.getD_some]
  simp [pvEq, pvTruthy, pvStr, pvNe, pvStartsWithQ, hne, hst, hn, joinStr]

theorem generate_bt_hci_ne (b : BTSpec) (hne : b.interface ≠ "")
    (hst : pyStartsWith b.interface "hci" = true) (hn : b.name ≠ b.interface) :
    generateSourceLine (SourceSpec.toDict (.bt b)) =
      some (mkLine b.interface [⟨"name", b.name, false⟩]) := by
  unfold generateSourceLine mkLine
  rw [show SourceSpec.toDict (.bt b) = b.toDict from rfl]
  simp only [btGet_type, btGet_name, btGet_interface, Option.getD_some]
  simp [pvEq, pvTruthy, pvStr, pvNe, pvStartsWithQ, hne, hst, hn, joinStr, mkchunk_name,
    String.append_assoc]

theorem generate_bt_plain (b : BTSpec) (hne : b.interface ≠ "")
    (hst : pyStartsWith b.interface "hci" = false) :
    generateSourceLine (SourceSpec.toDict (.bt b)) =
      some (mkLine "bluetooth" (btAtoms b)) := by
  unfold generateSourceLine mkLine btAtoms
  rw [show SourceSpec.toDict (.bt b) = b.toDict from rfl]
  simp only [btGet_type, btGet_name, btGet_interface, Option.getD_some]
  by_cases hn : b.name = "bluetooth" <;>
    simp [pvEq, pvTruthy, pvStr, pvNe, pvStartsWithQ, hne, hst, hn, joinStr, mkchunk_plain,
      mkchunk_device, mkchunk_name]

theorem bt_parse_hci_noname (b : BTSpec)
    (hst : pyStartsWith (lowerStr b.interface) "hci" = true) :
    parseCore b.interface [] =
      some [("type", PVal.s "bluetooth"), ("name", PVal.s b.interface),
        ("interface", PVal.s b.interface)] := by
  unfold parseCore btSrc
  simp [hst, pyGet]

theorem bt_parse_hci (b : BTSpec)
    (hst : pyStartsWith (lowerStr b.interface) "hci" = true) :
    parseCore b.interface (dictOfAtoms [⟨"name", b.name, false⟩]) =
      some [("type", PVal.s "bluetooth"), ("name", PVal.s b.name),
        ("interface", PVal.s b.interface)] := by
  unfold parseCore btSrc
  simp [hst, pyGet, dictOfAtoms, dictSet]

theorem bt_parse_plain (b : BTSpec) (hne : b.interface ≠ "") :
    parseCore "bluetooth" (dictOfAtoms (btAtoms b)) =
      some (SourceSpec.toDict (.bt b)) := by
  unfold parseCore btSrc btAtoms
  have hc : containsSub "bluetooth" (lowerStr "bluetooth") = true := by decide
  by_cases hn : b.name = "bluetooth" <;>
    simp [hne, hn, hc, pvTruthy, pvNe, pvEq, pyGet, dictOfAtoms, dictSet,
      SourceSpec.toDict, BTSpec.toDict]

theorem btAtoms_wf (b : BTSpec) (hid : CleanId b.interface) (hnm : CleanVal b.name) :
    ∀ a ∈ btAtoms b, a.WF := by
  intro a ha
  unfold btAtoms at ha
  simp only [List.mem_append] at ha
  rcases ha with h | h
  · have h2 := mem_ite_nil h
    simp only [List.mem_singleton] at h2
    subst h2
    exact wf_mk _ _ _ (by decide) (by decide) hid.1
  · have h2 := mem_ite_nil h
    simp only [List.mem_singleton] at h2
    subst h2
    exact wf_mk _ _ _ (by decide) (by decide) hnm

theorem btAtoms_ne (b : BTSpec) (hne : b.interface ≠ "") : btAtoms b ≠ [] := by
  intro h
  have hm : (⟨"device", b.interface, false⟩ : OptAtom) ∈ btAtoms b := by
    unfold btAtoms
    simp only [List.mem_append]
    refine Or.inl ?_
    simp [pvTruthy, hne]
  rw [h] at hm
  exact absurd hm (List.not_mem_nil _)

theorem bt_roundtrip (b : BTSpec) (hv : b.Valid) :
    (generateSourceLine (SourceSpec.toDict (.bt b))).bind parseSourceLine =
      some (SourceSpec.toDict (.bt b)) := by
  obtain ⟨hid, hne, hnm⟩ := hv
  by_cases hst : pyStartsWith b.interface "hci" = true
  · by_cases hn : b.name = b.interface
    · rw [generate_bt_hci_eq b hne hst hn, Option.some_bind]
      rw [parseSourceLine_plain b.interface hid.1 hne hid.2.1 hid.2.2]
      rw [bt_parse_hci_noname b (lowerStr_hci hst)]
      rw [show SourceSpec.toDict (.bt b) = b.toDict from rfl]
      unfold BTSpec.toDict
      rw [hn]
    · rw [generate_bt_hci_ne b hne hst hn, Option.some_bind]
      rw [parseSourceLine_mkLine b.interface [⟨"name", b.name, false⟩] hid.1 hid.2.1 hid.2.2
        (by
          intro a ha
          simp only [List.mem_singleton] at ha
          subst ha
          exact wf_mk _ _ _ (by decide) (by decide) hnm)
        (by simp)]
      rw [bt_parse_hci b (lowerStr_hci hst)]
      rfl
  · have hst2 : pyStartsWith b.interface "hci" = false := by
      cases hcc : pyStartsWith b.interface "hci"
      · rfl
      · exact absurd hcc hst
    rw [generate_bt_plain b hne hst2, Option.some_bind]
    rw [parseSourceLine_mkLine "bluetooth" (btAtoms b) (by decide) (by decide) (by decide)
      (btAtoms_wf b hid hnm) (btAtoms_ne b hne)]
    exact bt_parse_plain b hne

theorem lookS_type (r : SDRSpec) : lookRA (sdrAtoms r) "type" = some "rtl433" := by
  unfold sdrAtoms
  simp [omatch_id, lookRA_append, apply_ite (fun l => lookRA l "type"), lookRA_singleton,
    lookRA_nil, lookRA_cons]

theorem lookS_name (r : SDRSpec) : lookRA (sdrAtoms r) "name" =
    (if (pvTruthy (.s r.name) && pvNe (.s r.name) (.s r.device)) = true
      then some r.name else none) := by
  unfold sdrAtoms
  simp [omatch_id, lookRA_append, apply_ite (fun l => lookRA l "name"), lookRA_singleton,
    lookRA_nil, lookRA_cons]

theorem lookS_channel (r : SDRSpec) : lookRA (sdrAtoms r) "channel" =
    (if pvTruthy (.s r.frequency) = true then some r.frequency else none) := by
  unfold sdrAtoms
  simp [omatch_id, lookRA_append, apply_ite (fun l => lookRA l "channel"), lookRA_singleton,
    lookRA_nil, lookRA_cons]

theorem lookS_frequency (r : SDRSpec) : lookRA (sdrAtoms r) "frequency" = none := by
  unfold sdrAtoms
  simp [omatch_id, lookRA_append, apply_ite (fun l => lookRA l "frequency"), lookRA_singleton,
    lookRA_nil, lookRA_cons]

theorem lookS_device (r : SDRSpec) : lookRA (sdrAtoms r) "device" = none := by
  unfold sdrAtoms
  simp [omatch_id, lookRA_append, apply_ite (fun l => lookRA l "device"), lookRA_singleton,
    lookRA_nil, lookRA_cons]

theorem lookS_gain (r : SDRSpec) : lookRA (sdrAtoms r) "gain" =
    (if pvTruthy (.s r.gain) = true then some r.gain else none) := by
  unfold sdrAtoms
  simp [omatch_id, lookRA_append, apply_ite (fun l => lookRA l "gain"), lookRA_singleton,
    lookRA_nil, lookRA_cons]

theorem lookS_ppm (r : SDRSpec) : lookRA (sdrAtoms r) "ppm_error" =
    (if pvTruthy (.s r.ppm_error) = true then some r.ppm_error else none) := by
  unfold sdrAtoms
  simp [omatch_id, lookRA_append, apply_ite (fun l => lookRA l "ppm_error"), lookRA_singleton,
    lookRA_nil, lookRA_cons]

theorem generate_sdr (r : SDRSpec) (hdev : r.device ≠ "") :
    generateSourceLine (SourceSpec.toDict (.sdr r)) =
      some (mkLine r.device (sdrAtoms r)) := by
  unfold generateSourceLine mkLine sdrAtoms
  rw [show SourceSpec.toDict (.sdr r) = r.toDict from rfl]
  simp only [sdrGet_type, sdrGet_name, sdrGet_device, sdrGet_frequency, sdrGet_gain,
    sdrGet_ppm, Option.getD_some]
  by_cases hg : r.gain = "" <;> by_cases hp : r.ppm_error = "" <;>
    simp [hg, hp, pvEq, pvTruthy, pvStr, pvNe, hdev, joinStr,
      List.map_append, apply_ite (List.map (fun a : OptAtom => String.mk a.chunk)),
      mkchunk_rtl, mkchunk_channel, mkchunk_name, mkchunk_gain, mkchunk_ppm]

theorem sdr_parse (r : SDRSpec) (hv : r.Valid) :
    parseCore r.device (dictOfAtoms (sdrAtoms r)) = some (SourceSpec.toDict (.sdr r)) := by
  obtain ⟨hid, hne, hhci, hbt, hnm, hnne, hfv, hgv, hpv⟩ := hv
  have htype : typeLowerOf (dictOfAtoms (sdrAtoms r)) = some "rtl433" := by
    unfold typeLowerOf
    rw [pyGet_dictOfAtoms, lookS_type]
    rfl
  unfold parseCore
  simp only [hhci, hbt, Bool.or_self, Bool.false_eq_true, if_false, htype, Option.map_some]
  show (match (if (pyStartsWith (lowerStr r.device) "rtl433"
      || containsSub "rtl433" (lowerStr r.device)) = true then some true
      else some (decide ("rtl433" = "rtl433"))) with
    | none => none
    | some true => some (rtlSrc r.device (dictOfAtoms (sdrAtoms r)))
    | some false => wifiSrc r.device (dictOfAtoms (sdrAtoms r))) = _
  rw [show (if (pyStartsWith (lowerStr r.device) "rtl433"
      || containsSub "rtl433" (lowerStr r.device)) = true then some true
      else some (decide ("rtl433" = "rtl433"))) = some true by
    by_cases hb : (pyStartsWith (lowerStr r.device) "rtl433"
        || containsSub "rtl433" (lowerStr r.device)) = true
    · rw [if_pos hb]
    · rw [if_neg hb]
      rfl]
  dsimp only
  unfold rtlSrc
  simp only [pyGet_dictOfAtoms, lookS_name, lookS_channel, lookS_frequency, lookS_device,
    lookS_gain, lookS_ppm]
  by_cases hnd : r.name = r.device <;> by_cases hf : r.frequency = "" <;>
    by_cases hg : r.gain = "" <;> by_cases hp : r.ppm_error = "" <;>
      simp [hnd, hf, hg, hp, hnne, pvTruthy, pvNe, pvEq,
        SourceSpec.toDict, SDRSpec.toDict]

theorem sdrAtoms_wf (r : SDRSpec) (hnm : CleanVal r.name) (hfv : CleanVal r.frequency)
    (hgv : CleanVal r.gain) (hpv : CleanVal r.ppm_error) :
    ∀ a ∈ sdrAtoms r, a.WF := by
  intro a ha
  unfold sdrAtoms at ha
  simp only [List.mem_append] at ha
  rcases ha with (((h | h) | h) | h) | h
  · simp only [List.mem_singleton] at h
    subst h
    exact wf_mk _ _ _ (by decide) (by decide) (by decide)
  · have h2 := mem_ite_nil h
    simp only [List.mem_singleton] at h2
    subst h2
    exact wf_mk _ _ _ (by decide) (by decide) hfv
  · have h2 := mem_ite_nil h
    simp only [List.mem_singleton] at h2
    subst h2
    exact wf_mk _ _ _ (by decide) (by decide) hnm
  · have h2 := mem_ite_nil h
    simp only [List.mem_singleton] at h2
    subst h2
    exact wf_mk _ _ _ (by decide) (by decide) hgv
  · have h2 := mem_ite_nil h
    simp only [List.mem_singleton] at h2
    subst h2
    exact wf_mk _ _ _ (by decide) (by decide) hpv

theorem sdrAtoms_ne (r : SDRSpec) : sdrAtoms r ≠ [] := by
  intro h
  have hm : (⟨"type", "rtl433", false⟩ : OptAtom) ∈ sdrAtoms r := by
    unfold sdrAtoms
    simp
  rw [h] at hm
  exact absurd hm (List.not_mem_nil _)

theorem sdr_roundtrip (r : SDRSpec) (hv : r.Valid) :
    (generateSourceLine (SourceSpec.toDict (.sdr r))).bind parseSourceLine =
      some (SourceSpec.toDict (.sdr r)) := by
  obtain ⟨hid, hne, hhci, hbt, hnm, hnne, hfv, hgv, hpv⟩ := hv
  rw [generate_sdr r hne, Option.some_bind]
  rw [parseSourceLine_mkLine r.device (sdrAtoms r) hid.1 hid.2.1 hid.2.2
    (sdrAtoms_wf r hnm hfv hgv hpv) (sdrAtoms_ne r)]
  exact sdr_parse r ⟨hid, hne, hhci, hbt, hnm, hnne, hfv, hgv, hpv⟩

/-- Claim C2 counterexample: the WiFi spec with interface `wlan0`, fixed
channel `6` and `channel_hop=true` has a non-empty identifying field, yet
generating its directive line and re-parsing does not return the same spec:
`_generate_source_line` forces `channel_hop=false` next to a fixed channel,
so the reparse flips the `channel_hop` field. -/
theorem c2_counterexample :
    (WiFiSpec.mk "wlan0" "wlan0" "6" "" true "5/sec" true true true true false).interface ≠ ""
    ∧ (generateSourceLine (SourceSpec.toDict
        (.wifi (WiFiSpec.mk "wlan0" "wlan0" "6" "" true "5/sec" true true true true false)))).bind
          parseSourceLine ≠
      some (SourceSpec.toDict
        (.wifi (WiFiSpec.mk "wlan0" "wlan0" "6" "" true "5/sec" true true true true false))) := by
  constructor
  · decide
  · decide

/-- Claim C2 (amended): for every `SourceSpec` that is `Valid` — delimiter-
and whitespace-free fields, a non-empty identifying field free of `:`/`=`
that does not collide with the `hci`/`bluetooth`/`rtl433` type-inference
tests, both legacy WiFi bands enabled, no fixed WiFi channel while hopping
is on, a hop rate the generator can represent, and a non-empty SDR name —
generating the directive line with `_generate_source_line` and re-parsing it
with `_parse_source_line` returns exactly the original spec's dictionary
rendering. -/
theorem c2_amended (s : SourceSpec) (hv : s.Valid) :
    (generateSourceLine s.toDict).bind parseSourceLine = some s.toDict := by
  cases s with
  | wifi w => exact wifi_roundtrip w hv
  | bt b => exact bt_roundtrip b hv
  | sdr r => exact sdr_roundtrip r hv

/-- Claim C2 witness: the amended round trip evaluated at the concrete valid
WiFi spec on interface `wlan0`. -/
theorem c2_witness :
    (SourceSpec.wifi
      (WiFiSpec.mk "wlan0" "wlan0" "" "" true "5/sec" true true true true false)).Valid
    ∧ (generateSourceLine (SourceSpec.toDict (SourceSpec.wifi
        (WiFiSpec.mk "wlan0" "wlan0" "" "" true "5/sec" true true true true false)))).bind
          parseSourceLine =
      some (SourceSpec.toDict (SourceSpec.wifi
        (WiFiSpec.mk "wlan0" "wlan0" "" "" true "5/sec" true true true true false))) :=
  ⟨by unfold SourceSpec.Valid WiFiSpec.Valid; decide,
   c2_amended _ (by unfold SourceSpec.Valid WiFiSpec.Valid; decide)⟩

